import Mathlib

/-!
Verification development for the nexus-insights match-history application.

The definitions below are a shallow embedding, in Lean, of the JavaScript
source in src/ (badge evaluator, sync engine, advanced-stats computation and
player-rank cache).  Effectful collaborators (the Riot HTTP client and the
SQLite store) are modelled as explicit inputs: the store is a list of rows,
each remote capability is a function returning Except (an exception thrown by
the JS code is an Except.error value).  JavaScript numbers are modelled as
Int / Nat / Rat; a JSON field the code defaults with || 0 is modelled as the
plain numeric field, and a field the code branches on (null / undefined
checks) is modelled as an Option.  Euclidean-distance comparisons
(Math.sqrt(dx*dx+dy*dy) <= r in the source) are modelled by the equivalent
squared-distance comparison dx*dx+dy*dy <= r*r, which agrees with the source
for the non-negative radii used.
-/

namespace Nexus

/-! ## Id de-duplication

The sync engine collects candidate match ids from several listings and
deduplicates them with the JavaScript expression [...new Set(allMatchIds)].
A JS Set iterates in insertion order and ignores re-insertions, so the
resulting array keeps exactly the first occurrence of each id, in order.
dedupFirst is that operation. -/

/-- The Set's walk over the inserted ids: an id already seen is skipped,
a fresh one is appended to the output and recorded as seen. -/
def dedupFirstAux (seen : List String) : List String → List String
  | [] => []
  | x :: xs =>
    if x ∈ seen then dedupFirstAux seen xs
    else x :: dedupFirstAux (seen ++ [x]) xs

def dedupFirst (l : List String) : List String := dedupFirstAux [] l

/-- Spec-side characterisation ("deduplicated preserving first occurrence"):
keep each id and erase its later duplicates. -/
def dropLaterDuplicates : List String → List String
  | [] => []
  | x :: xs => x :: dropLaterDuplicates (xs.filter (fun y => y ≠ x))
termination_by l => l.length
decreasing_by
  simp only [List.length_cons]
  exact Nat.lt_succ_of_le (List.length_filter_le _ _)

theorem mem_dropLaterDuplicates {a : String} :
    ∀ {l : List String}, a ∈ dropLaterDuplicates l ↔ a ∈ l
  | [] => by simp [dropLaterDuplicates]
  | x :: xs => by
    rw [dropLaterDuplicates]
    by_cases hax : a = x
    · subst hax; simp
    · simp only [List.mem_cons, hax, false_or]
      rw [mem_dropLaterDuplicates (l := xs.filter (fun y => y ≠ x))]
      simp [List.mem_filter, hax]
termination_by l => l.length
decreasing_by
  simp only [List.length_cons]
  exact Nat.lt_succ_of_le (List.length_filter_le _ _)

theorem nodup_dropLaterDuplicates : ∀ (l : List String), (dropLaterDuplicates l).Nodup
  | [] => by simp [dropLaterDuplicates]
  | x :: xs => by
    rw [dropLaterDuplicates]
    refine List.nodup_cons.2 ⟨?_, nodup_dropLaterDuplicates (xs.filter (fun y => y ≠ x))⟩
    rw [mem_dropLaterDuplicates]
    simp [List.mem_filter]
termination_by l => l.length
decreasing_by
  simp only [List.length_cons]
  exact Nat.lt_succ_of_le (List.length_filter_le _ _)

theorem sublist_dropLaterDuplicates : ∀ (l : List String), (dropLaterDuplicates l).Sublist l
  | [] => by simp [dropLaterDuplicates]
  | x :: xs => by
    rw [dropLaterDuplicates]
    exact List.Sublist.cons₂ x
      ((sublist_dropLaterDuplicates (xs.filter (fun y => y ≠ x))).trans (List.filter_sublist xs))
termination_by l => l.length
decreasing_by
  simp only [List.length_cons]
  exact Nat.lt_succ_of_le (List.length_filter_le _ _)

theorem dedupFirstAux_eq_dropLaterDuplicates :
    ∀ (seen l : List String),
      dedupFirstAux seen l = dropLaterDuplicates (l.filter (fun y => y ∉ seen))
  | _, [] => by simp [dedupFirstAux, dropLaterDuplicates]
  | seen, x :: xs => by
    rw [dedupFirstAux]
    by_cases hx : x ∈ seen
    · rw [if_pos hx, dedupFirstAux_eq_dropLaterDuplicates seen xs]
      have hfilter : (x :: xs).filter (fun y => y ∉ seen) = xs.filter (fun y => y ∉ seen) := by
        simp [List.filter_cons, hx]
      rw [hfilter]
    · rw [if_neg hx, dedupFirstAux_eq_dropLaterDuplicates (seen ++ [x]) xs]
      have hcons : (x :: xs).filter (fun y => y ∉ seen) = x :: xs.filter (fun y => y ∉ seen) := by
        simp [List.filter_cons, hx]
      rw [hcons, dropLaterDuplicates]
      have hfilter : xs.filter (fun y => y ∉ seen ++ [x]) =
          (xs.filter (fun y => y ∉ seen)).filter (fun y => y ≠ x) := by
        rw [List.filter_filter]
        apply List.filter_congr
        intro y _
        by_cases hyx : y = x
        · subst hyx; simp
        · simp [hyx]
      rw [hfilter]

/-- The executable Set-based deduplication agrees with the ordering
characterisation. -/
theorem dedupFirst_eq_dropLaterDuplicates (l : List String) :
    dedupFirst l = dropLaterDuplicates l := by
  rw [dedupFirst, dedupFirstAux_eq_dropLaterDuplicates]
  congr 1
  simp

theorem mem_dedupFirst {a : String} {l : List String} : a ∈ dedupFirst l ↔ a ∈ l := by
  rw [dedupFirst_eq_dropLaterDuplicates]; exact mem_dropLaterDuplicates

theorem nodup_dedupFirst (l : List String) : (dedupFirst l).Nodup := by
  rw [dedupFirst_eq_dropLaterDuplicates]; exact nodup_dropLaterDuplicates l

theorem sublist_dedupFirst (l : List String) : (dedupFirst l).Sublist l := by
  rw [dedupFirst_eq_dropLaterDuplicates]; exact sublist_dropLaterDuplicates l

/-- Splitting lemma: deduplicating special-queue ids followed by ordinary ids
yields the deduplicated special ids followed by the ordinary ids that are not
special, deduplicated. -/
theorem dropLaterDuplicates_append :
    ∀ (s r : List String),
      dropLaterDuplicates (s ++ r) =
        dropLaterDuplicates s ++ dropLaterDuplicates (r.filter (fun y => y ∉ s))
  | [], r => by simp [dropLaterDuplicates]
  | x :: s', r => by
    rw [List.cons_append, dropLaterDuplicates, dropLaterDuplicates, List.filter_append,
      dropLaterDuplicates_append (s'.filter (fun y => y ≠ x)) (r.filter (fun y => y ≠ x))]
    have hfilter : (r.filter (fun y => y ≠ x)).filter (fun y => y ∉ s'.filter (fun z => z ≠ x)) =
        r.filter (fun y => y ∉ x :: s') := by
      rw [List.filter_filter]
      apply List.filter_congr
      intro y _
      by_cases hyx : y = x
      · subst hyx; simp
      · by_cases hys : y ∈ s'
        · simp [hyx, hys]
        · simp [hyx, hys]
    rw [hfilter, List.cons_append]
termination_by s _ => s.length
decreasing_by
  simp only [List.length_cons]
  exact Nat.lt_succ_of_le (List.length_filter_le _ _)

theorem dedupFirst_append (s r : List String) :
    dedupFirst (s ++ r) =
      dedupFirst s ++ dropLaterDuplicates (r.filter (fun y => y ∉ s)) := by
  rw [dedupFirst_eq_dropLaterDuplicates, dedupFirst_eq_dropLaterDuplicates,
    dropLaterDuplicates_append]

/-! ## Data model

Shapes of the Riot match-detail and timeline payloads, restricted to the
fields the embedded code reads.  Numeric fields the JS code reads with a
|| 0 default are plain Int (undefined and 0 are indistinguishable to the
code); fields the code null-checks are Option. -/

structure Position where
  x : Int
  y : Int
deriving DecidableEq, Repr

structure ChampionStats where
  healthMax : Int
deriving DecidableEq, Repr

structure ParticipantFrame where
  minionsKilled : Int
  jungleMinionsKilled : Int
  totalGold : Int
  xp : Int
  position : Option Position
  championStats : Option ChampionStats
deriving DecidableEq, Repr

/-- One timeline event.  JS events are records tagged by a type string; the
numeric participant fields of kinds that lack them read as undefined, which
never equals a real participant id (ids are >= 1), so absent ids are
modelled as 0. -/
structure Event where
  type : String
  timestamp : Int
  killerId : Nat
  victimId : Nat
  assistingParticipantIds : List Nat
  position : Option Position
  monsterType : String
  buildingType : String
  level : Nat
  participantId : Nat
deriving DecidableEq, Repr

structure Frame where
  timestamp : Int
  participantFrames : List (Nat × ParticipantFrame)
  events : List Event
deriving DecidableEq, Repr

structure TimelineParticipant where
  puuid : String
  participantId : Nat
deriving DecidableEq, Repr

structure TimelineInfo where
  participants : List TimelineParticipant
  frames : List Frame
deriving DecidableEq, Repr

structure Timeline where
  info : TimelineInfo
deriving DecidableEq, Repr

structure RuneSelection where
  perk : Int
deriving DecidableEq, Repr

structure RuneStyle where
  style : Int
  selections : List RuneSelection
deriving DecidableEq, Repr

structure Perks where
  styles : List RuneStyle
deriving DecidableEq, Repr

/-- One entry of info.participants in the match-detail payload.  String
position fields read through || default to "" when absent, as in the JS. -/
structure Participant where
  championName : String
  teamId : Nat
  puuid : String
  participantId : Nat
  teamPosition : String
  lane : String
  individualPosition : String
  kills : Int
  deaths : Int
  assists : Int
  goldEarned : Int
  totalMinionsKilled : Int
  neutralMinionsKilled : Int
  totalDamageDealtToChampions : Int
  trueDamageDealtToChampions : Int
  totalDamageTaken : Int
  damageSelfMitigated : Int
  visionScore : Int
  champLevel : Int
  pentaKills : Int
  timeCCingOthers : Int
  firstBloodKill : Bool
  firstBloodAssist : Bool
  win : Bool
  perks : Option Perks
deriving DecidableEq, Repr

structure ObjectiveStat where
  kills : Int
deriving DecidableEq, Repr

structure TeamObjectives where
  dragon : Option ObjectiveStat
  baron : Option ObjectiveStat
  riftHerald : Option ObjectiveStat
  tower : Option ObjectiveStat
  inhibitor : Option ObjectiveStat
deriving DecidableEq, Repr

structure TeamInfo where
  teamId : Nat
  objectives : Option TeamObjectives
deriving DecidableEq, Repr

structure MatchInfo where
  queueId : Nat
  gameCreation : Int
  gameDuration : Int
  participants : List Participant
  teams : List TeamInfo
deriving DecidableEq, Repr

structure RawDetail where
  info : MatchInfo
deriving DecidableEq, Repr

/-! ## Geometry helpers (badgeEvaluator.js)

dist(a,b) = sqrt((ax-bx)^2+(ay-by)^2) appears in the source only in
comparisons against a non-negative radius; sqDist models it by the
equivalent squared comparison. -/

def sqDist (a b : Position) : Int :=
  (a.x - b.x) ^ 2 + (a.y - b.y) ^ 2

-- Team 100 = blue (bottom-left), Team 200 = red (top-right)
def isInBase (pos : Option Position) (teamId : Nat) : Bool :=
  match pos with
  | none => false
  | some p =>
    if teamId == 100 then p.x < 2500 && p.y < 2500
    else p.x > 12500 && p.y > 12500

def isInFountain (pos : Option Position) (teamId : Nat) : Bool :=
  match pos with
  | none => false
  | some p =>
    if teamId == 100 then p.x < 1200 && p.y < 1200
    else p.x > 13800 && p.y > 13800

-- Rough enemy jungle zones (river divides at ~7000 diagonal)
def isInJungleSide (pos : Option Position) (teamId : Nat) : Bool :=
  match pos with
  | none => false
  | some p =>
    if teamId == 100 then p.x < 9000 && p.y < 9000 && !(isInBase pos 100)
    else p.x > 6000 && p.y > 6000 && !(isInBase pos 200)

/-! ## Timeline helpers (badgeEvaluator.js) -/

/-- getNearestFrame: frame minimising |frame.timestamp - timestamp|; the JS
scan keeps the first frame attaining the minimum and yields undefined on an
empty frame list (frames[0]). -/
def getNearestFrame (frames : List Frame) (timestamp : Int) : Option Frame :=
  match frames with
  | [] => none
  | f :: fs =>
    some (fs.foldl
      (fun closest frame =>
        if (frame.timestamp - timestamp).natAbs < (closest.timestamp - timestamp).natAbs
        then frame else closest)
      f)

def getPlayerPos (frame : Option Frame) (pId : Nat) : Option Position :=
  match frame with
  | none => none
  | some f =>
    match f.participantFrames.lookup pId with
    | none => none
    | some pf => pf.position

def getPlayerGold (frame : Option Frame) (pId : Nat) : Int :=
  match frame with
  | none => 0
  | some f =>
    match f.participantFrames.lookup pId with
    | none => 0
    | some pf => pf.totalGold

def countNearby (frame : Option Frame) (ids : List Nat) (position : Position)
    (range : Int) : Nat :=
  ids.countP (fun id =>
    match getPlayerPos frame id with
    | some pos => sqDist pos position ≤ range * range
    | none => false)

def didParticipate (event : Event) (myPId : Nat) : Bool :=
  event.killerId == myPId || event.assistingParticipantIds.contains myPId

def getTeamGold (frame : Option Frame) (teamIds : List Nat) : Int :=
  (teamIds.map (fun id => getPlayerGold frame id)).sum

/-! ## Advanced-stats computation (computeAdvancedStatsForMatch) -/

structure AdvancedStats where
  csDiff15 : Option Int
  goldDiff15 : Option Int
  xpDiff15 : Option Int
  firstBlood : Nat
  dmgGoldRatio : Option Rat
  isolatedDeaths : Option Nat
  objectiveRate : Option Rat
deriving DecidableEq, Repr

/-- The result record as initialised at the top of the function: every
derived field null, firstBlood 0. -/
def defaultAdvancedStats : AdvancedStats :=
  { csDiff15 := none, goldDiff15 := none, xpDiff15 := none, firstBlood := 0,
    dmgGoldRatio := none, isolatedDeaths := none, objectiveRate := none }

/-- participants.find(pred) followed by participants.indexOf on the result.
JS indexOf compares object references, so the index returned is exactly the
index of the first predicate match. -/
def findWithIndex (pred : Participant → Bool) :
    List Participant → Option (Participant × Nat)
  | [] => none
  | p :: ps =>
    if pred p then some (p, 0)
    else (findWithIndex pred ps).map (fun q => (q.1, q.2 + 1))

/-- p.participantId || (participants.indexOf(p) + 1): a 0 (or absent,
modelled as 0) participantId is falsy and falls back to index + 1. -/
def pid (p : Participant) (idx : Nat) : Nat :=
  if p.participantId ≠ 0 then p.participantId else idx + 1

/-- me.teamPosition || me.lane || '': an empty string is falsy. -/
def posLabel (p : Participant) : String :=
  if p.teamPosition ≠ "" then p.teamPosition else p.lane

/-- The subject-resolution predicate used by both the stats computation and
the context builder: same stored champion name and team id. -/
def subjectPred (championName : String) (teamId : Nat) (p : Participant) : Bool :=
  p.championName == championName && p.teamId == teamId

/-- Lane opponent: first participant of the other team sharing the subject's
non-empty position label (with its index, for participant-id fallback). -/
def findOpponent (ps : List Participant) (me : Participant) :
    Option (Participant × Nat) :=
  findWithIndex
    (fun p => p.teamId != me.teamId && posLabel p == posLabel me && posLabel me != "")
    ps

/-- frames[15] || frames[frames.length - 1]: the minute-15 frame, or the last
frame of a shorter match, or undefined when there are no frames. -/
def frame15 (frames : List Frame) : Option Frame :=
  match frames.get? 15 with
  | some f => some f
  | none => frames.getLast?

/-- The CSD@15 / GD@15 / XPD@15 block: (subject - opponent) on combined
minion counts, total gold and xp at the minute-15 frame; none whenever the
frame, either participant frame, or the opponent is missing. -/
def laneDiffs (ps : List Participant) (me : Participant) (myIdx : Nat)
    (frames : List Frame) : Option (Int × Int × Int) :=
  match frame15 frames with
  | none => none
  | some f15 =>
    match f15.participantFrames.lookup (pid me myIdx) with
    | none => none
    | some myFrame =>
      match findOpponent ps me with
      | none => none
      | some (opp, oppIdx) =>
        match f15.participantFrames.lookup (pid opp oppIdx) with
        | none => none
        | some oppFrame =>
          some ((myFrame.minionsKilled + myFrame.jungleMinionsKilled) -
                  (oppFrame.minionsKilled + oppFrame.jungleMinionsKilled),
                myFrame.totalGold - oppFrame.totalGold,
                myFrame.xp - oppFrame.xp)

/-- Participant ids of the subject's teammates (subject excluded). -/
def teamPIdsOf (ps : List Participant) (me : Participant) (myPId : Nat) : List Nat :=
  ((ps.enum.filter (fun ip => ip.2.teamId == me.teamId && pid ip.2 ip.1 ≠ myPId)).map
    (fun ip => pid ip.2 ip.1))

def allEventsOf (frames : List Frame) : List Event :=
  (frames.map (fun f => f.events)).flatten

def killEventsOf (frames : List Frame) : List Event :=
  (allEventsOf frames).filter (fun e => e.type == "CHAMPION_KILL")

def subjectDeaths (frames : List Frame) (myPId : Nat) : List Event :=
  (killEventsOf frames).filter (fun e => e.victimId == myPId)

/-- frames[Math.min(Math.floor(timestamp / 60000), frames.length - 1)]: the
frame whose index is the death's minute, clamped to the last frame. -/
def floorFrame (frames : List Frame) (ts : Int) : Option Frame :=
  frames.get? (min (ts / 60000).toNat (frames.length - 1))

/-- The body of the isolated-death loop, as a predicate on one death event.
A death without a recorded position (or without a frame) counts as isolated;
otherwise it is isolated when no teammate's recorded position at the
floor-indexed frame is within 1500 units and no elite-monster or building
kill happens within 15 seconds either side. -/
def isIsolatedDeath (frames : List Frame) (teamPIds : List Nat)
    (objEvents : List Event) (death : Event) : Bool :=
  match death.position with
  | none => true
  | some dp =>
    match floorFrame frames death.timestamp with
    | none => true
    | some nearFrame =>
      let hasNearbyTeammate := teamPIds.any (fun tmPId =>
        match nearFrame.participantFrames.lookup tmPId with
        | some tmFrame =>
          match tmFrame.position with
          | some tp => sqDist dp tp ≤ 1500 * 1500
          | none => false
        | none => false)
      let objectiveNearby := objEvents.any (fun obj =>
        (obj.timestamp - death.timestamp).natAbs ≤ 15000)
      !hasNearbyTeammate && !objectiveNearby

/-- Elite-monster kills credited (as killer) to the subject's team. -/
def teamObjEventsOf (frames : List Frame) (myTeamPIds : List Nat) (myPId : Nat) :
    List Event :=
  (allEventsOf frames).filter (fun e =>
    e.type == "ELITE_MONSTER_KILL" && (myTeamPIds ++ [myPId]).contains e.killerId)

/-- The per-objective aliveness judgement: alive when no prior death exists,
and otherwise dead only when the most recent death is less than 30 seconds
old and the subject's floor-frame position lies inside their fountain zone;
an objective with no frame, participant frame or position for the subject is
not counted as alive. -/
def aliveAtObjective (frames : List Frame) (myDeathTimestamps : List Int)
    (myPId : Nat) (teamId : Nat) (obj : Event) : Bool :=
  match (myDeathTimestamps.filter (fun t => t < obj.timestamp)).getLast? with
  | none => true
  | some recentDeath =>
    match floorFrame frames obj.timestamp with
    | none => false
    | some frame =>
      match frame.participantFrames.lookup myPId with
      | none => false
      | some pf =>
        match pf.position with
        | none => false
        | some pos =>
          let inFountain :=
            if teamId == 100 then pos.x < 1500 && pos.y < 1500
            else pos.x > 13500 && pos.y > 13500
          if obj.timestamp - recentDeath < 30000 && inFountain then false else true

/-- parseFloat(x.toFixed(1)): round to one decimal place (the source value is
a non-negative ratio, where JS half-away-from-zero agrees with round). -/
def roundTo1 (q : Rat) : Rat := ((round (q * 10) : Int) : Rat) / 10

/-- parseFloat(x.toFixed(3)): round to three decimal places. -/
def roundTo3 (q : Rat) : Rat := ((round (q * 1000) : Int) : Rat) / 1000

/-- computeAdvancedStatsForMatch(matchData, timelineData, myChampionName,
myTeamId).  A raw payload given to JSON.parse that fails to parse is an
Except.error input; the JS exception is caught by the function's outer
try/catch, which returns whatever fields were already filled in.  The
timeline argument is null (none) or a payload that parses or not. -/
def computeAdvancedStatsForMatch (matchData : Except String RawDetail)
    (timelineData : Option (Except String Timeline))
    (myChampionName : String) (myTeamId : Nat) : AdvancedStats :=
  match matchData with
  | .error _ => defaultAdvancedStats
  | .ok raw =>
    let participants := raw.info.participants
    match findWithIndex (subjectPred myChampionName myTeamId) participants with
    | none => defaultAdvancedStats
    | some (me, myIdx) =>
      let myPId := pid me myIdx
      let firstBlood : Nat := if me.firstBloodKill || me.firstBloodAssist then 1 else 0
      let dmgGoldRatio : Option Rat :=
        if me.goldEarned > 0 then
          some (roundTo3 ((me.totalDamageDealtToChampions : Rat) / (me.goldEarned : Rat)))
        else none
      let base := { defaultAdvancedStats with
                    firstBlood := firstBlood, dmgGoldRatio := dmgGoldRatio }
      match timelineData with
      | none => base
      | some (.error _) => base
      | some (.ok timeline) =>
        let frames := timeline.info.frames
        let diffs := laneDiffs participants me myIdx frames
        let myDeaths := subjectDeaths frames myPId
        let myTeamPIds := teamPIdsOf participants me myPId
        let objectiveEvents := (allEventsOf frames).filter (fun e =>
          e.type == "ELITE_MONSTER_KILL" || e.type == "BUILDING_KILL")
        let isolatedCount :=
          myDeaths.countP (fun d => isIsolatedDeath frames myTeamPIds objectiveEvents d)
        let teamObjEvents := teamObjEventsOf frames myTeamPIds myPId
        let myDeathTimestamps := myDeaths.map (fun d => d.timestamp)
        let objectiveRate : Option Rat :=
          if teamObjEvents.length > 0 then
            let aliveCount := teamObjEvents.countP
              (fun obj => aliveAtObjective frames myDeathTimestamps myPId me.teamId obj)
            some (roundTo1 ((aliveCount : Rat) / (teamObjEvents.length : Rat) * 100))
          else none
        { csDiff15 := diffs.map (fun d => d.1),
          goldDiff15 := diffs.map (fun d => d.2.1),
          xpDiff15 := diffs.map (fun d => d.2.2),
          firstBlood := firstBlood,
          dmgGoldRatio := dmgGoldRatio,
          isolatedDeaths := some isolatedCount,
          objectiveRate := objectiveRate }

/-! ## Sync engine (syncMatches)

The SQLite store is modelled as a list of rows holding the columns the sync
logic consults: the key, gameCreation (for the cursors) and the required
columns of the completeness check.  Value columns the sync logic never reads
back (stat snapshot, items, derived stats, rawJson) are omitted from the row
model.  The Riot client is a record of functions; a call that would reject
returns Except.error. -/

structure MatchRow where
  matchId : String
  gameCreation : Option Int
  gameDuration : Option Int
  totalMinionsKilled : Option Int
  teamDragons : Option Int
  teamBarons : Option Int
  teamRiftHeralds : Option Int
  primaryRune : Option Int
  teamKills : Option Int
  timelineJson : Option Timeline
deriving DecidableEq, Repr

abbrev Store := List MatchRow

/-- SELECT ... FROM matches WHERE matchId = ? (matchId is the primary key). -/
def storeGet (s : Store) (id : String) : Option MatchRow :=
  s.find? (fun r => r.matchId == id)

def hasRow (s : Store) (id : String) : Bool :=
  s.any (fun r => r.matchId == id)

/-- External collaborators of syncMatches.  listIds takes the epoch-seconds
start time, the optional explicit queue filter, and the attempt number (the
special-queue fetch is retried, and distinct attempts may behave
differently). -/
structure SyncEnv where
  listIds : Int → Option Nat → Nat → Except String (List String)
  detail : String → Except String RawDetail
  timeline : String → Except String Timeline

/-- SELECT MAX(gameCreation): SQL MAX ignores NULLs and is NULL on an empty
table. -/
def maxCreation (s : Store) : Option Int :=
  (s.filterMap (fun r => r.gameCreation)).foldl
    (fun acc v => match acc with | none => some v | some m => some (max m v)) none

def minCreation (s : Store) : Option Int :=
  (s.filterMap (fun r => r.gameCreation)).foldl
    (fun acc v => match acc with | none => some v | some m => some (min m v)) none

-- January 1, 2026 at 00:00 UTC, as an epoch timestamp in seconds
def RANKED_SEASON_START : Int := 1767225600

def SPECIAL_QUEUES : List Nat := [2400, 1700, 1710]

/-- The retry loop of one special-queue listing: up to 2 additional attempts,
first success wins; when every attempt fails the queue is logged and skipped,
contributing no ids. -/
def fetchSpecialQueue (env : SyncEnv) (queueId : Nat) : List String :=
  match env.listIds RANKED_SEASON_START (some queueId) 0 with
  | .ok l => l
  | .error _ =>
    match env.listIds RANKED_SEASON_START (some queueId) 1 with
    | .ok l => l
    | .error _ =>
      match env.listIds RANKED_SEASON_START (some queueId) 2 with
      | .ok l => l
      | .error _ => []

def specialIdsOf (env : SyncEnv) : List String :=
  (SPECIAL_QUEUES.map (fun q => fetchSpecialQueue env q)).flatten

/-- allMatchIds.unshift(...specialMatchIds); [...new Set(allMatchIds)]: the
id list actually processed, special-queue ids first, first occurrences kept. -/
def processedIds (specialMatchIds collected : List String) : List String :=
  dedupFirst (specialMatchIds ++ collected)

/-- The completeness check of the per-unit SELECT: every required column
non-null. -/
def requiredComplete (r : MatchRow) : Bool :=
  r.gameDuration.isSome && r.totalMinionsKilled.isSome && r.teamDragons.isSome &&
  r.teamBarons.isSome && r.teamRiftHeralds.isSome && r.primaryRune.isSome &&
  r.teamKills.isSome && r.timelineJson.isSome

/-- needsFetch: record absent, or present but missing any required column. -/
def needsFetch (row : Option MatchRow) : Bool :=
  match row with
  | none => true
  | some r => !(requiredComplete r)

/-- myObjectives.xxx?.kills || 0 where myObjectives = team?.objectives || {}. -/
def objKills (team : Option TeamInfo) (pick : TeamObjectives → Option ObjectiveStat) : Int :=
  match team with
  | none => 0
  | some t =>
    match t.objectives with
    | none => 0
    | some o =>
      match pick o with
      | none => 0
      | some s => s.kills

/-- me.perks?.styles?.[0]?.selections?.[0]?.perk || null (a 0 perk id is
falsy and becomes null). -/
def primaryRuneOf (me : Participant) : Option Int :=
  match me.perks with
  | none => none
  | some pk =>
    match pk.styles.get? 0 with
    | none => none
    | some s0 =>
      match s0.selections.get? 0 with
      | none => none
      | some sel => if sel.perk ≠ 0 then some sel.perk else none

/-- Sum of kills over the subject's team's participants. -/
def teamKillsOf (ps : List Participant) (teamId : Nat) : Int :=
  ((ps.filter (fun p => p.teamId == teamId)).map (fun p => p.kills)).sum

/-- The row written by the INSERT (restricted to the modelled columns). -/
def rowFromFetch (id : String) (data : RawDetail) (timelineData : Option Timeline)
    (me : Participant) : MatchRow :=
  let myTeam := data.info.teams.find? (fun t => t.teamId == me.teamId)
  { matchId := id,
    gameCreation := some data.info.gameCreation,
    gameDuration := some data.info.gameDuration,
    totalMinionsKilled := some (me.totalMinionsKilled + me.neutralMinionsKilled),
    teamDragons := some (objKills myTeam (fun o => o.dragon)),
    teamBarons := some (objKills myTeam (fun o => o.baron)),
    teamRiftHeralds := some (objKills myTeam (fun o => o.riftHerald)),
    primaryRune := primaryRuneOf me,
    teamKills := some (teamKillsOf data.info.participants me.teamId),
    timelineJson := timelineData }

/-- The UPDATE statement: overwrites every modelled column except the key and
gameCreation (which the UPDATE does not set). -/
def applyUpdate (old fresh : MatchRow) : MatchRow :=
  { old with
    gameDuration := fresh.gameDuration,
    totalMinionsKilled := fresh.totalMinionsKilled,
    teamDragons := fresh.teamDragons,
    teamBarons := fresh.teamBarons,
    teamRiftHeralds := fresh.teamRiftHeralds,
    primaryRune := fresh.primaryRune,
    teamKills := fresh.teamKills,
    timelineJson := fresh.timelineJson }

def updateRow (s : Store) (id : String) (fresh : MatchRow) : Store :=
  s.map (fun r => if r.matchId == id then applyUpdate r fresh else r)

/-- Accumulator of the processing loop. -/
structure SyncState where
  store : Store
  newMatches : Nat
  skipped : Nat
  newMatchIds : List String
deriving Repr

/-- Processing of one match id (the body of the batch map, including its
try/catch).  Each unit only reads and writes the row of its own id, so
folding the deduplicated id list sequentially is observationally equivalent
to the source's batches of two concurrent units. -/
def processUnit (env : SyncEnv) (puuid : String) (st : SyncState) (id : String) :
    SyncState :=
  let row := storeGet st.store id
  if needsFetch row then
    match env.detail id with
    | .error _ => st
    | .ok data =>
      let timelineData := (env.timeline id).toOption
      match data.info.participants.find? (fun p => p.puuid == puuid) with
      | none => st
      | some me =>
        let fresh := rowFromFetch id data timelineData me
        match row with
        | none =>
          { store := st.store ++ [fresh],
            newMatches := st.newMatches + 1,
            skipped := st.skipped,
            newMatchIds := st.newMatchIds ++ [id] }
        | some _ =>
          { st with store := updateRow st.store id fresh }
  else
    { st with skipped := st.skipped + 1 }

/-- The object syncMatches returns.  The zero-id early return builds an
object without a newMatchIds key; an absent key is modelled as none. -/
structure SyncResult where
  newMatches : Nat
  skipped : Nat
  total : Nat
  newMatchIds : Option (List String)
deriving DecidableEq, Repr

/-- The id-discovery phase of syncMatches: forward sync from the most recent
stored creation time, plus backward gap-fill (ids not already stored) when
more than one day separates the season start from the oldest stored match;
on an empty store, everything since season start.  A rejection of one of
these (non-retried) listing calls propagates as Except.error. -/
def collectCandidateIds (env : SyncEnv) (store : Store) : Except String (List String) :=
  match maxCreation store with
  | some latestTime =>
    if latestTime ≠ 0 then
      -- FORWARD SYNC: fetch matches after the most recent one
      match env.listIds (latestTime / 1000 + 1) none 0 with
      | .error e => .error e
      | .ok forwardMatches =>
        -- BACKWARD SYNC: only when a gap of more than one day exists
        -- between season start and the oldest stored match
        match minCreation store with
        | some oldestTime =>
          if oldestTime ≠ 0 ∧ oldestTime / 1000 > RANKED_SEASON_START + 86400 then
            match env.listIds RANKED_SEASON_START none 0 with
            | .error e => .error e
            | .ok backwardMatches =>
              .ok (forwardMatches ++ backwardMatches.filter (fun id => !(hasRow store id)))
          else .ok forwardMatches
        | none => .ok forwardMatches
    else
      -- First sync: fetch all matches since season start
      env.listIds RANKED_SEASON_START none 0
  | none => env.listIds RANKED_SEASON_START none 0

/-- syncMatches(puuid, onProgress), with the progress callback (pure
logging) dropped. -/
def syncMatches (env : SyncEnv) (store : Store) (puuid : String) :
    Except String SyncResult :=
  match collectCandidateIds env store with
  | .error e => .error e
  | .ok collected =>
    let matchIds := processedIds (specialIdsOf env) collected
    if matchIds.isEmpty then
      .ok { newMatches := 0, skipped := 0, total := 0, newMatchIds := none }
    else
      let final := matchIds.foldl (fun st id => processUnit env puuid st id)
        { store := store, newMatches := 0, skipped := 0, newMatchIds := [] }
      .ok { newMatches := final.newMatches, skipped := final.skipped,
            total := matchIds.length, newMatchIds := some final.newMatchIds }

/-! ## Player-rank cache (getPlayerRank)

player_ranks has puuid as its primary key, so the store holds at most one
row per player; the remote league fetch is an explicit Except input. -/

structure RankRow where
  puuid : String
  soloTier : Option String
  soloRank : Option String
  soloLP : Option Int
  flexTier : Option String
  flexRank : Option String
  flexLP : Option Int
  fetchedAt : Int
deriving DecidableEq, Repr

structure LeagueEntry where
  tier : String
  rank : String
  leaguePoints : Int
deriving DecidableEq, Repr

structure LeagueData where
  solo : Option LeagueEntry
  flex : Option LeagueEntry
deriving DecidableEq, Repr

/-- leagueData.xxx?.field || null (an empty string is falsy and becomes
null); leaguePoints uses the nullish ?? so 0 survives. -/
def strOrNull (s : String) : Option String := if s ≠ "" then some s else none

def mkRankRow (puuid : String) (d : LeagueData) (now : Int) : RankRow :=
  { puuid := puuid,
    soloTier := match d.solo with | none => none | some e => strOrNull e.tier,
    soloRank := match d.solo with | none => none | some e => strOrNull e.rank,
    soloLP := d.solo.map (fun e => e.leaguePoints),
    flexTier := match d.flex with | none => none | some e => strOrNull e.tier,
    flexRank := match d.flex with | none => none | some e => strOrNull e.rank,
    flexLP := d.flex.map (fun e => e.leaguePoints),
    fetchedAt := now }

/-- INSERT ... ON CONFLICT(puuid) DO UPDATE: every non-key column is
overwritten, so the conflict case replaces the whole row. -/
def upsertRank (s : List RankRow) (row : RankRow) : List RankRow :=
  if s.any (fun r => r.puuid == row.puuid) then
    s.map (fun r => if r.puuid == row.puuid then row else r)
  else s ++ [row]

def RANK_CACHE_TTL_MS : Int := 24 * 60 * 60 * 1000

/-- getPlayerRank(puuid, maxAgeMs): the cached row if fetched within
maxAgeMs; otherwise a remote fetch followed by an upsert; on remote failure
the stale cached row, or null when none exists.  Returns the (possibly
updated) store together with the returned row. -/
def getPlayerRank (store : List RankRow) (fetchLeague : Except String LeagueData)
    (now : Int) (puuid : String) (maxAgeMs : Int) :
    List RankRow × Option RankRow :=
  match store.find? (fun r => r.puuid == puuid && r.fetchedAt > now - maxAgeMs) with
  | some cached => (store, some cached)
  | none =>
    match fetchLeague with
    | .ok leagueData =>
      let row := mkRankRow puuid leagueData now
      (upsertRank store row, some row)
    | .error _ => (store, store.find? (fun r => r.puuid == puuid))

/-! ## Badge evaluator: context builder -/

/-- The persisted match record as consumed by buildContext: the stored raw
payloads plus the subject-identifying columns.  A rawJson / timelineJson
column that is NULL is none; a stored payload string that parses is its
parsed value (a malformed stored payload would make buildContext itself
throw, a case outside the evaluator's contract). -/
structure MatchRecord where
  rawJson : Option RawDetail
  timelineJson : Option Timeline
  championName : String
  teamId : Nat
deriving Repr

/-- The per-evaluation analysis context (the ctx object).  The source field
ctx.match is named matchRec here (match is a Lean keyword). -/
structure Ctx where
  matchRec : MatchRecord
  me : Participant
  info : MatchInfo
  participants : List Participant
  myTeam : List Participant
  enemyTeam : List Participant
  teamKills : Int
  gameDuration : Int
  win : Bool
  myTeamId : Nat
  enemyTeamId : Nat
  hasTimeline : Bool
  myPId : Option Nat
  myTeamIds : List Nat
  enemyTeamIds : List Nat
  killEvents : List Event
  objectiveEvents : List Event
  buildingEvents : List Event
  wardEvents : List Event
  levelEvents : List Event
  frames : List Frame
deriving Repr

/-- The puuidToTlId object: built by inserting timeline participants in
order, so for a duplicated puuid the last entry wins. -/
def tlIdOf (tl : Timeline) (pu : String) : Option Nat :=
  (tl.info.participants.reverse.find? (fun tp => tp.puuid == pu)).map
    (fun tp => tp.participantId)

/-- ctx.killEvents.sort((a, b) => a.timestamp - b.timestamp): a stable
ascending sort (insertion sort). -/
def insertByTimestamp (e : Event) : List Event → List Event
  | [] => [e]
  | x :: xs =>
    if e.timestamp < x.timestamp then e :: x :: xs else x :: insertByTimestamp e xs

def sortByTimestamp (l : List Event) : List Event :=
  l.foldr insertByTimestamp []

def buildContext (m : MatchRecord) : Option Ctx :=
  match m.rawJson with
  | none => none
  | some raw =>
    let info := raw.info
    let participants := info.participants
    match participants.find? (fun p => subjectPred m.championName m.teamId p) with
    | none => none
    | some me =>
      let myTeam := participants.filter (fun p => p.teamId == me.teamId)
      let enemyTeam := participants.filter (fun p => p.teamId != me.teamId)
      let teamKills := (myTeam.map (fun p => p.kills)).sum
      let base : Ctx :=
        { matchRec := m, me := me, info := info, participants := participants,
          myTeam := myTeam, enemyTeam := enemyTeam, teamKills := teamKills,
          gameDuration := info.gameDuration, win := me.win,
          myTeamId := me.teamId,
          enemyTeamId := if me.teamId == 100 then 200 else 100,
          hasTimeline := false, myPId := none, myTeamIds := [], enemyTeamIds := [],
          killEvents := [], objectiveEvents := [], buildingEvents := [],
          wardEvents := [], levelEvents := [], frames := [] }
      match m.timelineJson with
      | none => some base
      | some tl =>
        let frames := tl.info.frames
        let events := allEventsOf frames
        some { base with
          hasTimeline := true,
          -- puuidToTlId[me.puuid] || null: a 0 id is falsy
          myPId := (match tlIdOf tl me.puuid with
                    | some v => if v ≠ 0 then some v else none
                    | none => none),
          -- tlId != null admits 0, so no zero filtering here
          myTeamIds := participants.filterMap (fun p =>
            if p.teamId == me.teamId then tlIdOf tl p.puuid else none),
          enemyTeamIds := participants.filterMap (fun p =>
            if p.teamId != me.teamId then tlIdOf tl p.puuid else none),
          frames := frames,
          killEvents := sortByTimestamp
            (events.filter (fun e => e.type == "CHAMPION_KILL")),
          objectiveEvents := events.filter (fun e => e.type == "ELITE_MONSTER_KILL"),
          buildingEvents := events.filter (fun e => e.type == "BUILDING_KILL"),
          wardEvents := events.filter (fun e =>
            e.type == "WARD_PLACED" || e.type == "WARD_KILL"),
          levelEvents := events.filter (fun e => e.type == "LEVEL_UP") }

/-! ## Badge catalog

Each entry's predicate is a JS closure over the shared context; a predicate
that would throw is modelled as returning Except.error.  Badges whose
required signal is not present in the event schema are the constant false,
as in the source. -/

structure Badge where
  name : String
  description : String
  evaluate : Ctx → Except String Bool

structure EarnedBadge where
  name : String
  description : String
deriving DecidableEq, Repr

/-- championStats?.healthMax || 0 at one frame. -/
def healthMaxAt (frame : Frame) (pId : Nat) : Int :=
  match frame.participantFrames.lookup pId with
  | none => 0
  | some pf =>
    match pf.championStats with
    | none => 0
    | some cs => cs.healthMax

def BADGES : List Badge := [
  -- Bandle City
  { name := "David vs Goliath",
    description := "You survived on a prayer and 5% health while taking down 3 enemies. Peak yordle energy.",
    -- Needs HP at kill time - not available in standard API. Cannot implement.
    evaluate := fun _ => .ok false },
  { name := "Small But Mighty",
    description := "You dealt the most damage on your team despite having the lowest total health pool.",
    evaluate := fun ctx => .ok (
      let myDmg := ctx.me.totalDamageDealtToChampions
      let isMaxDmg := ctx.myTeam.all (fun p => decide (p.totalDamageDealtToChampions ≤ myDmg))
      if ctx.hasTimeline && decide (ctx.frames.length > 0) then
        match ctx.frames.getLast? with
        | none => false
        | some lastFrame =>
          let myHP := match ctx.myPId with
            | none => 0
            | some mp => healthMaxAt lastFrame mp
          let teamHPs := ctx.myTeamIds.map (fun id => healthMaxAt lastFrame id)
          let isMinHP := decide (myHP > 0) && teamHPs.all (fun hp => decide (hp ≥ myHP))
          isMaxDmg && isMinHP
      else false) },
  { name := "The Mayor\x27s Decree",
    description := "You had the highest Vision Score and most Assists on your team. You run this town.",
    evaluate := fun ctx => .ok (
      let myVis := ctx.me.visionScore
      let myAst := ctx.me.assists
      ctx.myTeam.all (fun p => decide (p.visionScore ≤ myVis)) &&
      ctx.myTeam.all (fun p => decide (p.assists ≤ myAst))) },
  -- Noxus
  { name := "The Blood-Crowned",
    description := "One Pentakill is a fluke; two in one game is a war crime. Welcome to the high command.",
    evaluate := fun ctx => .ok (decide (ctx.me.pentaKills ≥ 2)) },
  { name := "Iron Will",
    description := "You secured 3+ kills while being outnumbered (1v2 or 1v3) in the immediate area.",
    evaluate := fun ctx =>
      if !ctx.hasTimeline then .ok false else
      match ctx.myPId with
      | none => .ok false
      | some mp => .ok (
        let outnumberedKills := ctx.killEvents.countP (fun e =>
          e.killerId == mp &&
          (match e.position with
           | none => false
           | some killPos =>
             let frame := getNearestFrame ctx.frames e.timestamp
             let nearbyAllies := countNearby frame
               (ctx.myTeamIds.filter (fun id => id ≠ mp)) killPos 1000
             let nearbyEnemies := countNearby frame ctx.enemyTeamIds killPos 1000
             -- outnumbered means more enemies than allies near me
             decide (nearbyEnemies > nearbyAllies + 1)))
        decide (outnumberedKills ≥ 3)) },
  { name := "Total Annexation",
    description := "You participated in every single turret destruction on the map. The empire\x27s borders only move forward.",
    evaluate := fun ctx =>
      if !ctx.hasTimeline then .ok false else
      match ctx.myPId with
      | none => .ok false
      | some mp => .ok (
        let enemyTurrets := ctx.buildingEvents.filter (fun e =>
          e.buildingType == "TOWER_BUILDING" && ctx.myTeamIds.contains e.killerId)
        !enemyTurrets.isEmpty && enemyTurrets.all (fun e => didParticipate e mp)) },
  -- Demacia
  { name := "The Unyielding Aegis",
    description := "You were present for every single Epic Monster kill. A true vanguard never misses an objective.",
    evaluate := fun ctx =>
      if !ctx.hasTimeline then .ok false else
      match ctx.myPId with
      | none => .ok false
      | some mp => .ok (
        let teamMonsters := ctx.objectiveEvents.filter (fun e =>
          ctx.myTeamIds.contains e.killerId)
        !teamMonsters.isEmpty && teamMonsters.all (fun e => didParticipate e mp)) },
  { name := "Hittin\x27 a Wall",
    description := "You mitigated 50,000+ damage during the match. They broke their swords against your resolve.",
    evaluate := fun ctx => .ok
      (decide (ctx.me.damageSelfMitigated + ctx.me.totalDamageTaken ≥ 50000)) },
  { name := "For the King",
    description := "You were the first person to deal damage in 5 separate teamfight kills. You lead the charge.",
    -- Needs per-event damage logs with timestamps - not available. Cannot implement.
    evaluate := fun _ => .ok false },
  -- Bilgewater
  { name := "King of the Docks",
    description := "You finished with the highest gold count in the lobby. Everyone else is just a stowaway.",
    evaluate := fun ctx => .ok (
      let myGold := ctx.me.goldEarned
      ctx.participants.all (fun p => decide (p.goldEarned ≤ myGold))) },
  { name := "Sea Monster\x27s Tithe",
    description := "You stole Baron while your entire team was dead. High stakes, higher reward.",
    evaluate := fun ctx =>
      if !ctx.hasTimeline then .ok false else
      match ctx.myPId with
      | none => .ok false
      | some mp => .ok (
        let baronKills := ctx.objectiveEvents.filter (fun e =>
          e.monsterType == "BARON_NASHOR" && e.killerId == mp)
        baronKills.any (fun baron =>
          let assists := baron.assistingParticipantIds.filter
            (fun id => ctx.myTeamIds.contains id)
          assists.isEmpty &&
          -- Solo baron kill - check if allies were dead
          (let recentAllyDeaths := ctx.killEvents.filter (fun e =>
             ctx.myTeamIds.contains e.victimId && e.victimId ≠ mp &&
             decide (e.timestamp > baron.timestamp - 40000) &&
             decide (e.timestamp < baron.timestamp))
           let allyCount := (ctx.myTeamIds.filter (fun id => id ≠ mp)).length
           decide (recentAllyDeaths.length ≥ allyCount)))) },
  { name := "Treasure Map Locator",
    description := "You reached 4,000 gold by the 10:00 mark. You\x27ve got a nose for the \"shiny\" stuff.",
    evaluate := fun ctx =>
      if !ctx.hasTimeline then .ok false else
      match ctx.myPId with
      | none => .ok false
      | some mp => .ok (
        -- Frame at 10 minutes (600000ms)
        match ctx.frames.find? (fun f => decide (f.timestamp ≥ 600000)) with
        | none => false
        | some frame10 => decide (getPlayerGold (some frame10) mp ≥ 4000)) },
  -- Freljord
  { name := "The Unbroken Will",
    description := "You won after being down 10,000 gold. The ice doesn\x27t break, and neither do you.",
    evaluate := fun ctx => .ok (
      if !ctx.hasTimeline || !ctx.win then false
      else ctx.frames.any (fun frame =>
        decide (getTeamGold (some frame) ctx.enemyTeamIds -
          getTeamGold (some frame) ctx.myTeamIds ≥ 10000))) },
  { name := "Where Are You Going?",
    description := "100+ CC score and 15+ assists. You turned the enemy team into living statues.",
    evaluate := fun ctx => .ok
      (decide (ctx.me.timeCCingOthers ≥ 100) && decide (ctx.me.assists ≥ 15)) },
  { name := "Heart of the Ram",
    description := "You mitigated 10,000 damage in a single 20-second fight. You are the mountain.",
    -- Needs per-frame damageSelfMitigated which timeline does not provide.
    evaluate := fun _ => .ok false },
  -- Ionia
  { name := "The Spirit\x27s Balance",
    description := "100% Kill Participation. You were the heartbeat of every single fight on the map.",
    evaluate := fun ctx => .ok (
      if ctx.teamKills == 0 then false
      else decide (ctx.me.kills + ctx.me.assists ≥ ctx.teamKills)) },
  { name := "Dance of the First Lands",
    description := "You hit all 5 enemies with a single Ultimate. A perfect symphony of destruction.",
    -- Needs ability hit tracking - not available. Cannot implement.
    evaluate := fun _ => .ok false },
  { name := "Death by a Thousand Petals",
    description := "You secured 3 kills in a row where each kill was dealt by a different ability.",
    -- Needs killing blow ability source - not available. Cannot implement.
    evaluate := fun _ => .ok false },
  -- Piltover
  { name := "Hextech Perfection",
    description := "0 deaths and 10+ CS per minute. Efficiency that would make Camille blush.",
    evaluate := fun ctx => .ok (
      if ctx.me.deaths ≠ 0 then false
      else
        let csPerMin : Rat :=
          if ctx.gameDuration > 0 then
            (ctx.me.totalMinionsKilled : Rat) / ((ctx.gameDuration : Rat) / 60)
          else 0
        decide (csPerMin ≥ 10)) },
  { name := "Clockwork Multiplier",
    description := "You secured a Triple Kill or higher using only your auto-attacks. No mana wasted.",
    -- Needs damage source type for killing blows - not available. Cannot implement.
    evaluate := fun _ => .ok false },
  { name := "Piltovan Sniper",
    description := "You secured a kill from over 2,000 units away. Distance is just another variable.",
    evaluate := fun ctx =>
      if !ctx.hasTimeline then .ok false else
      match ctx.myPId with
      | none => .ok false
      | some mp => .ok (
        ctx.killEvents.any (fun e =>
          e.killerId == mp &&
          (match e.position with
           | none => false
           | some pos =>
             match getPlayerPos (getNearestFrame ctx.frames e.timestamp) mp with
             | none => false
             | some myPos => decide (sqDist myPos pos ≥ 2000 * 2000)))) },
  -- Zaun
  { name := "Chem-Tech Overdrive",
    description := "You pumped out 2,000 damage while below 10% health. High-octane desperation.",
    -- Needs HP tracking during damage output - not available. Cannot implement.
    evaluate := fun _ => .ok false },
  { name := "Unstable Mutation",
    description := "You used 4 different abilities or items to secure 4 kills. Versatility is your only constant.",
    -- Needs kill source tracking - not available. Cannot implement.
    evaluate := fun _ => .ok false },
  { name := "Toxic Work Culture",
    description := "You dealt 10,000+ total True Damage or Damage-over-time (Burn/Poison) in one match.",
    -- trueDamageDealtToChampions is available; DoT is not tracked separately
    evaluate := fun ctx => .ok (decide (ctx.me.trueDamageDealtToChampions ≥ 10000)) },
  -- Targon
  { name := "The Star-Crossed Hero",
    description := "You denied 10 killing blows on allies. You didn\x27t just support them; you saved their souls.",
    -- Needs lethal damage denial tracking - not available. Cannot implement.
    evaluate := fun _ => .ok false },
  { name := "Peak Performance",
    description := "You reached Level 18 before anyone else in the match. The view is better from the top.",
    evaluate := fun ctx =>
      if !ctx.hasTimeline then .ok false else
      match ctx.myPId with
      | none => .ok false
      | some mp => .ok (
        let lvl18events := ctx.levelEvents.filter (fun e => e.level == 18)
        match lvl18events with
        | [] => false
        | e0 :: rest =>
          -- stable sort by timestamp, then take the first element:
          -- the first event attaining the minimal timestamp
          let first := rest.foldl
            (fun acc e => if e.timestamp < acc.timestamp then e else acc) e0
          first.participantId == mp) },
  { name := "Celestial Impact",
    description := "You CC\x27d all 5 enemies simultaneously using a single ability. A cosmic alignment.",
    -- Needs CC application tracking - not available. Cannot implement.
    evaluate := fun _ => .ok false },
  -- Shurima
  { name := "The Ascended Emperor",
    description := "Highest gold, damage, and level. Tell the people what you have seen today.",
    evaluate := fun ctx => .ok (
      let myGold := ctx.me.goldEarned
      let myDmg := ctx.me.totalDamageDealtToChampions
      let myLvl := ctx.me.champLevel
      ctx.participants.all (fun p => decide (p.goldEarned ≤ myGold)) &&
      ctx.participants.all (fun p => decide (p.totalDamageDealtToChampions ≤ myDmg)) &&
      ctx.participants.all (fun p => decide (p.champLevel ≤ myLvl))) },
  { name := "Architect of Ruin",
    description := "You destroyed a tower, an inhibitor, and a nexus turret in one continuous push.",
    evaluate := fun ctx =>
      if !ctx.hasTimeline then .ok false else
      match ctx.myPId with
      | none => .ok false
      | some mp => .ok (
        let myBuildings := ctx.buildingEvents.filter (fun e => e.killerId == mp)
        let towers := myBuildings.filter (fun e => e.buildingType == "TOWER_BUILDING")
        let inhibs := myBuildings.filter (fun e => e.buildingType == "INHIBITOR_BUILDING")
        -- the inner nexus-turret search is dead code: any tower/inhibitor
        -- pair within 60 seconds returns true
        towers.any (fun tower => inhibs.any (fun inhib =>
          decide ((tower.timestamp - inhib.timestamp).natAbs ≤ 60000)))) },
  { name := "The Emperor\x27s Tax",
    description := "You took every single jungle camp (including the enemy\x27s) in one rotation. All belongs to Shurima.",
    -- Needs specific camp identification - not reliably available. Cannot implement.
    evaluate := fun _ => .ok false },
  -- Shadow Isles
  { name := "Death is Only the Start",
    description := "You got a Triple Kill while gray-screened. Death is just a change in management.",
    evaluate := fun ctx =>
      if !ctx.hasTimeline then .ok false else
      match ctx.myPId with
      | none => .ok false
      | some mp => .ok (
        let myDeaths := ctx.killEvents.filter (fun e => e.victimId == mp)
        myDeaths.any (fun death =>
          -- Rough respawn window: kills within 30s after death attributed to me
          let postDeathKills := ctx.killEvents.filter (fun e =>
            e.killerId == mp && decide (e.timestamp > death.timestamp) &&
            decide (e.timestamp ≤ death.timestamp + 30000))
          decide (postDeathKills.length ≥ 3))) },
  { name := "The Harrowing Mist",
    description := "10+ takedowns inside the enemy base. The mist has finally claimed their home.",
    evaluate := fun ctx =>
      if !ctx.hasTimeline then .ok false else
      match ctx.myPId with
      | none => .ok false
      | some mp => .ok (
        let count := ctx.killEvents.countP (fun e =>
          didParticipate e mp && e.position.isSome && isInBase e.position ctx.enemyTeamId)
        decide (count ≥ 10)) },
  { name := "Soul-Siphon Surge",
    description := "You healed for 100% of your maximum HP during a single continuous fight.",
    -- Needs heal tracking in specific time windows - not available. Cannot implement.
    evaluate := fun _ => .ok false },
  -- Ixtal
  { name := "Elemental Ambush",
    description := "You secured a kill within 3 seconds of leaving a bush. They never saw the leaves move.",
    -- Needs brush enter/exit events - not available. Cannot implement.
    evaluate := fun _ => .ok false },
  { name := "Jungle Stalker",
    description := "You killed the enemy Jungler in their own jungle multiple times. Their camps are your camps now.",
    evaluate := fun ctx =>
      if !ctx.hasTimeline then .ok false else
      match ctx.myPId with
      | none => .ok false
      | some mp =>
        match ctx.enemyTeam.find? (fun p =>
          p.teamPosition == "JUNGLE" || p.individualPosition == "JUNGLE") with
        | none => .ok false
        | some enemyJungler =>
          -- the predicate re-parses ctx.match.timelineJson; with
          -- hasTimeline set the payload is present, otherwise the
          -- property access on null would throw
          match ctx.matchRec.timelineJson with
          | none => .error "Cannot read properties of null"
          | some tl =>
            match tlIdOf tl enemyJungler.puuid with
            | none => .ok false
            | some enemyJgPId =>
              if enemyJgPId == 0 then .ok false
              else .ok (
                let count := ctx.killEvents.countP (fun e =>
                  e.killerId == mp && e.victimId == enemyJgPId &&
                  e.position.isSome && isInJungleSide e.position ctx.enemyTeamId)
                decide (count ≥ 4)) },
  { name := "The Unseen Gardener",
    description := "You cleared 15+ wards and secured 2 kills while remaining undetected by the enemy.",
    -- Needs detection/visibility tracking - not available. Cannot implement.
    evaluate := fun _ => .ok false },
  -- The Void
  { name := "Evolve and Consume",
    description := "You shut down an enemy who had a significant gold lead. Adaptation is the key to survival.",
    evaluate := fun ctx =>
      if !ctx.hasTimeline then .ok false else
      match ctx.myPId with
      | none => .ok false
      | some mp => .ok (
        ctx.killEvents.any (fun e =>
          e.killerId == mp &&
          (let frame := getNearestFrame ctx.frames e.timestamp
           decide (getPlayerGold frame e.victimId > getPlayerGold frame mp + 2000)))) },
  { name := "Oblivion\x27s Call",
    description := "Over 30% of your damage was True Damage. Resistances are an illusion you\x27ve deleted.",
    evaluate := fun ctx => .ok (
      let totalDmg := ctx.me.totalDamageDealtToChampions
      let trueDmg := ctx.me.trueDamageDealtToChampions
      decide (totalDmg > 0) &&
      decide ((trueDmg : Rat) / (totalDmg : Rat) ≥ 3 / 10)) },
  { name := "The Void\x27s Reach",
    description := "You secured a kill from your own fountain while the victim was in their base.",
    evaluate := fun ctx =>
      if !ctx.hasTimeline then .ok false else
      match ctx.myPId with
      | none => .ok false
      | some mp => .ok (
        ctx.killEvents.any (fun e =>
          e.killerId == mp && e.position.isSome &&
          -- Victim in enemy base
          isInBase e.position ctx.enemyTeamId &&
          -- Me in my fountain
          isInFountain (getPlayerPos (getNearestFrame ctx.frames e.timestamp) mp)
            ctx.myTeamId)) }
]

/-! ## Badge evaluation loop -/

/-- The for-loop of evaluateBadges with its per-badge try/catch: a throwing
predicate (Except.error) is skipped, a true predicate contributes its static
name and description. -/
def evalCatalog : List Badge → Ctx → List EarnedBadge
  | [], _ => []
  | b :: bs, ctx =>
    match b.evaluate ctx with
    | .ok true => { name := b.name, description := b.description } :: evalCatalog bs ctx
    | .ok false => evalCatalog bs ctx
    | .error _ => evalCatalog bs ctx

def evaluateBadges (m : MatchRecord) : List EarnedBadge :=
  match buildContext m with
  | none => []
  | some ctx => evalCatalog BADGES ctx

/-! ## Concrete instances used by the closed checks -/

def baseParticipant : Participant :=
  { championName := "Ahri", teamId := 100, puuid := "puuid-1", participantId := 1,
    teamPosition := "", lane := "", individualPosition := "",
    kills := 0, deaths := 0, assists := 0, goldEarned := 0,
    totalMinionsKilled := 0, neutralMinionsKilled := 0,
    totalDamageDealtToChampions := 0, trueDamageDealtToChampions := 0,
    totalDamageTaken := 0, damageSelfMitigated := 0, visionScore := 0,
    champLevel := 0, pentaKills := 0, timeCCingOthers := 0,
    firstBloodKill := false, firstBloodAssist := false, win := false, perks := none }

def plainMatchInfo : MatchInfo :=
  { queueId := 420, gameCreation := 0, gameDuration := 1800,
    participants := [baseParticipant], teams := [] }

def plainRecord : MatchRecord :=
  { rawJson := some { info := plainMatchInfo }, timelineJson := none,
    championName := "Ahri", teamId := 100 }

def plainCtx : Ctx :=
  { matchRec := plainRecord, me := baseParticipant, info := plainMatchInfo,
    participants := [baseParticipant], myTeam := [baseParticipant], enemyTeam := [],
    teamKills := 0, gameDuration := 1800, win := false, myTeamId := 100,
    enemyTeamId := 200, hasTimeline := false, myPId := none, myTeamIds := [],
    enemyTeamIds := [], killEvents := [], objectiveEvents := [],
    buildingEvents := [], wardEvents := [], levelEvents := [], frames := [] }

def throwingBadge : Badge :=
  { name := "Faulting rule", description := "a predicate that throws",
    evaluate := fun _ => .error "boom" }

def trueBadge : Badge :=
  { name := "Earned rule", description := "a predicate that holds",
    evaluate := fun _ => .ok true }

def noRawRecord : MatchRecord :=
  { rawJson := none, timelineJson := none, championName := "Ahri", teamId := 100 }

def mismatchRecord : MatchRecord :=
  { rawJson := some { info := plainMatchInfo }, timelineJson := none,
    championName := "Zed", teamId := 100 }

def staleRankRow : RankRow :=
  { puuid := "abc", soloTier := some "GOLD", soloRank := some "II", soloLP := some 10,
    flexTier := none, flexRank := none, flexLP := none, fetchedAt := 0 }

def eliteKillEvent : Event :=
  { type := "ELITE_MONSTER_KILL", timestamp := 1000, killerId := 1, victimId := 0,
    assistingParticipantIds := [], position := none, monsterType := "DRAGON",
    buildingType := "", level := 0, participantId := 0 }

def objFrame : Frame :=
  { timestamp := 0, participantFrames := [], events := [eliteKillEvent] }

def objTl : Timeline :=
  { info := { participants := [{ puuid := "puuid-1", participantId := 1 }],
              frames := [objFrame] } }

def objRaw : RawDetail := { info := plainMatchInfo }

def emptyTl : Timeline :=
  { info := { participants := [{ puuid := "puuid-1", participantId := 1 }],
              frames := [] } }

-- Lane-swap fixtures: a second team-100 participant shares the subject's
-- TOP label and is listed first, so opponent resolution is not mutual.
def laneP : Participant :=
  { baseParticipant with
    championName := "Cassiopeia", puuid := "puuid-3",
    participantId := 3, teamPosition := "TOP" }

def laneS : Participant :=
  { baseParticipant with teamPosition := "TOP" }

def laneO : Participant :=
  { baseParticipant with
    championName := "Zed", teamId := 200, puuid := "puuid-2",
    participantId := 2, teamPosition := "TOP" }

def lanePf (cs : Int) : ParticipantFrame :=
  { minionsKilled := cs, jungleMinionsKilled := 0, totalGold := 0, xp := 0,
    position := none, championStats := none }

def laneFrame : Frame :=
  { timestamp := 0,
    participantFrames := [(1, lanePf 10), (2, lanePf 3), (3, lanePf 0)],
    events := [] }

def laneTl : Timeline :=
  { info := { participants := [{ puuid := "puuid-3", participantId := 3 },
                               { puuid := "puuid-1", participantId := 1 },
                               { puuid := "puuid-2", participantId := 2 }],
              frames := [laneFrame] } }

def laneRaw : RawDetail :=
  { info := { queueId := 420, gameCreation := 0, gameDuration := 1800,
              participants := [laneP, laneS, laneO], teams := [] } }

-- The same lane matchup without the interloper: resolution is mutual.
def laneRaw2 : RawDetail :=
  { info := { queueId := 420, gameCreation := 0, gameDuration := 1800,
              participants := [laneS, laneO], teams := [] } }

-- Isolated-death fixtures: the subject dies at t = 100s; the floor-indexed
-- frame is minute 1 (ally 9000 units away) while the nearest frame by
-- timestamp is minute 2 (ally at the death location).
def isoAlly : Participant :=
  { baseParticipant with
    championName := "Cassiopeia", puuid := "puuid-2", participantId := 2 }

def isoEnemy : Participant :=
  { baseParticipant with
    championName := "Zed", teamId := 200, puuid := "puuid-3", participantId := 3 }

def isoRaw : RawDetail :=
  { info := { queueId := 420, gameCreation := 0, gameDuration := 1800,
              participants := [baseParticipant, isoAlly, isoEnemy], teams := [] } }

def isoPos : Position := { x := 1000, y := 1000 }

def isoFarPos : Position := { x := 10000, y := 10000 }

def isoPf (pos : Position) : ParticipantFrame :=
  { minionsKilled := 0, jungleMinionsKilled := 0, totalGold := 0, xp := 0,
    position := some pos, championStats := none }

def isoDeathEvent : Event :=
  { type := "CHAMPION_KILL", timestamp := 100000, killerId := 3, victimId := 1,
    assistingParticipantIds := [], position := some isoPos, monsterType := "",
    buildingType := "", level := 0, participantId := 0 }

def isoFrame0 : Frame :=
  { timestamp := 0,
    participantFrames := [(1, isoPf isoPos), (2, isoPf isoFarPos), (3, isoPf isoFarPos)],
    events := [] }

def isoFrame1 : Frame :=
  { timestamp := 60000,
    participantFrames := [(1, isoPf isoPos), (2, isoPf isoFarPos), (3, isoPf isoFarPos)],
    events := [] }

def isoFrame2 : Frame :=
  { timestamp := 120000,
    participantFrames := [(1, isoPf isoPos), (2, isoPf isoPos), (3, isoPf isoFarPos)],
    events := [isoDeathEvent] }

def isoTl : Timeline :=
  { info := { participants := [{ puuid := "puuid-1", participantId := 1 },
                               { puuid := "puuid-2", participantId := 2 },
                               { puuid := "puuid-3", participantId := 3 }],
              frames := [isoFrame0, isoFrame1, isoFrame2] } }

-- Variant in which the ally is near at the floor-indexed frame as well.
def isoNearFrame1 : Frame :=
  { timestamp := 60000,
    participantFrames := [(1, isoPf isoPos), (2, isoPf isoPos), (3, isoPf isoFarPos)],
    events := [] }

def isoNearTl : Timeline :=
  { info := { participants := [{ puuid := "puuid-1", participantId := 1 },
                               { puuid := "puuid-2", participantId := 2 },
                               { puuid := "puuid-3", participantId := 3 }],
              frames := [isoFrame0, isoNearFrame1, isoFrame2] } }

def emptyListingEnv : SyncEnv :=
  { listIds := fun _ _ _ => .ok [],
    detail := fun _ => .error "not called",
    timeline := fun _ => .error "not called" }

def completeRow : MatchRow :=
  { matchId := "NA1_100", gameCreation := some 1000000, gameDuration := some 1800,
    totalMinionsKilled := some 100, teamDragons := some 2, teamBarons := some 1,
    teamRiftHeralds := some 1, primaryRune := some 8112, teamKills := some 20,
    timelineJson := some { info := { participants := [], frames := [] } } }

def completeEnv : SyncEnv :=
  { listIds := fun _ _ _ => .ok ["NA1_100"],
    detail := fun _ => .error "not called",
    timeline := fun _ => .error "not called" }

/-! ## Theorems -/

/-- C2: For every combination of forward-sync, backward-sync and
special-queue id lists (possibly overlapping), the id list syncMatches
processes contains no duplicate id, keeps the first occurrence of each id
(it equals the first-occurrence-preserving deduplication of the
concatenated input and is a sublist of that input), and splits as a block
of special-queue ids followed by a block free of special-queue ids, so
every special-queue id precedes every id that came only from the
forward/backward fetches. -/
theorem C2_processedIds_nodup_special_first
    (specialMatchIds forwardIds backwardIds : List String) :
    (processedIds specialMatchIds (forwardIds ++ backwardIds)).Nodup ∧
    processedIds specialMatchIds (forwardIds ++ backwardIds) =
      dropLaterDuplicates (specialMatchIds ++ (forwardIds ++ backwardIds)) ∧
    (processedIds specialMatchIds (forwardIds ++ backwardIds)).Sublist
      (specialMatchIds ++ (forwardIds ++ backwardIds)) ∧
    ∃ A B, processedIds specialMatchIds (forwardIds ++ backwardIds) = A ++ B ∧
      (∀ x ∈ specialMatchIds, x ∈ A) ∧
      (∀ x ∈ A, x ∈ specialMatchIds) ∧
      (∀ y ∈ B, y ∉ specialMatchIds) := by
  simp only [processedIds]
  refine ⟨nodup_dedupFirst _, dedupFirst_eq_dropLaterDuplicates _, sublist_dedupFirst _,
    dedupFirst specialMatchIds,
    dropLaterDuplicates
      ((forwardIds ++ backwardIds).filter (fun y => y ∉ specialMatchIds)),
    dedupFirst_append _ _, ?_, ?_, ?_⟩
  · intro x hx; exact mem_dedupFirst.2 hx
  · intro x hx; exact mem_dedupFirst.1 hx
  · intro y hy
    have hmem := mem_dropLaterDuplicates.1 hy
    simp only [List.mem_filter, decide_eq_true_eq] at hmem
    exact hmem.2

theorem C2_processedIds_nodup_special_first_witness :
    (processedIds ["sp1", "f1"] (["f1", "b2"] ++ ["sp1", "b2"])).Nodup :=
  (C2_processedIds_nodup_special_first ["sp1", "f1"] ["f1", "b2"] ["sp1", "b2"]).1

/-- C8: a badge-catalog entry whose predicate throws on the given context is
treated as not earned and evaluation continues with the rest of the
catalog: the loop returns exactly what it returns with the faulting entry
removed, so the earned subset of the other badges is still produced and no
predicate fault aborts the evaluation. -/
theorem C8_rule_fault_isolated (ctx : Ctx) (pre post : List Badge) (b : Badge)
    (msg : String) (hthrow : b.evaluate ctx = .error msg) :
    evalCatalog (pre ++ b :: post) ctx = evalCatalog (pre ++ post) ctx := by
  induction pre with
  | nil => simp only [List.nil_append, evalCatalog, hthrow]
  | cons p ps ih => simp only [List.cons_append, evalCatalog, List.append_eq, ih]

theorem C8_rule_fault_isolated_witness :
    throwingBadge.evaluate plainCtx = .error "boom" ∧
    evalCatalog ([trueBadge] ++ throwingBadge :: [trueBadge]) plainCtx =
      evalCatalog ([trueBadge] ++ [trueBadge]) plainCtx :=
  ⟨rfl, C8_rule_fault_isolated plainCtx [trueBadge] [trueBadge] throwingBadge "boom" rfl⟩

/-- C10: a match record whose raw detail payload is absent, or whose
participant list has no entry with the record's stored champion name and
team id, makes evaluateBadges return the empty list (the context builder
yields null, so no predicate is evaluated). -/
theorem C10_unresolvable_subject_empty (m : MatchRecord)
    (h : m.rawJson = none ∨
      ∀ raw, m.rawJson = some raw → ∀ p ∈ raw.info.participants,
        ¬(p.championName = m.championName ∧ p.teamId = m.teamId)) :
    evaluateBadges m = [] := by
  rw [evaluateBadges]
  rcases h with h | h
  · simp only [buildContext, h]
  · cases hraw : m.rawJson with
    | none => simp only [buildContext, hraw]
    | some raw =>
      have hfind : raw.info.participants.find?
          (fun p => subjectPred m.championName m.teamId p) = none := by
        rw [List.find?_eq_none]
        intro p hp
        have hnp := h raw hraw p hp
        simp only [subjectPred, Bool.and_eq_true, beq_iff_eq]
        intro hcontra
        exact hnp ⟨hcontra.1, hcontra.2⟩
      simp only [buildContext, hraw, hfind]

theorem C10_unresolvable_subject_empty_witness :
    evaluateBadges noRawRecord = [] ∧ evaluateBadges mismatchRecord = [] := by
  refine ⟨C10_unresolvable_subject_empty noRawRecord (Or.inl rfl),
    C10_unresolvable_subject_empty mismatchRecord (Or.inr ?_)⟩
  intro raw hraw p hp
  cases hraw
  simp only [plainMatchInfo, List.mem_singleton] at hp
  subst hp
  decide

/-- C9: getPlayerRank returns the cached entry when one was fetched within
maxAge; when no fresh entry exists and the remote fetch fails it returns
the cached entry for that id regardless of its age (the store keys ranks by
player id, so that entry is the most recent one); and it returns an absent
result only when no cached entry for the id exists at all. -/
theorem C9_rank_cache_soft_fail (store : List RankRow)
    (fetchLeague : Except String LeagueData) (now : Int) (puuid : String)
    (maxAgeMs : Int) :
    (∀ c, store.find? (fun r => r.puuid == puuid && r.fetchedAt > now - maxAgeMs) = some c →
      (getPlayerRank store fetchLeague now puuid maxAgeMs).2 = some c) ∧
    (∀ msg, fetchLeague = .error msg →
      store.find? (fun r => r.puuid == puuid && r.fetchedAt > now - maxAgeMs) = none →
      (getPlayerRank store fetchLeague now puuid maxAgeMs).2 =
        store.find? (fun r => r.puuid == puuid)) ∧
    ((getPlayerRank store fetchLeague now puuid maxAgeMs).2 = none →
      store.find? (fun r => r.puuid == puuid) = none) := by
  refine ⟨?_, ?_, ?_⟩
  · intro c hc
    simp only [getPlayerRank, hc]
  · intro msg hmsg hnone
    simp only [getPlayerRank, hnone, hmsg]
  · intro hres
    rcases hfresh : store.find?
        (fun r => r.puuid == puuid && r.fetchedAt > now - maxAgeMs) with _ | c
    · cases hfetch : fetchLeague with
      | ok d =>
        simp only [getPlayerRank, hfresh, hfetch] at hres
        exact absurd hres (by simp)
      | error msg =>
        simp only [getPlayerRank, hfresh, hfetch] at hres
        exact hres
    · simp only [getPlayerRank, hfresh] at hres
      exact absurd hres (by simp)

theorem C9_rank_cache_soft_fail_witness :
    (getPlayerRank [staleRankRow] (.error "rate limited") 100 "abc" 10).2 =
      some staleRankRow := by
  have h := (C9_rank_cache_soft_fail [staleRankRow] (.error "rate limited")
    100 "abc" 10).2.1 "rate limited" rfl (by decide)
  rw [h]
  decide

/-- C4: the advanced-stats computation is total and degrades on failure: a
raw detail payload that fails to parse, or one in which the subject cannot
be resolved, yields the all-null default record (firstBlood 0); a missing
or unparsable timeline leaves every timeline-dependent derived field null
while the detail-derived fields are still produced. -/
theorem C4_compute_total_degrades (matchData : Except String RawDetail)
    (timelineData : Option (Except String Timeline)) (c : String) (q : Nat) :
    (∀ msg, matchData = .error msg →
      computeAdvancedStatsForMatch matchData timelineData c q = defaultAdvancedStats) ∧
    (∀ raw, matchData = .ok raw →
      findWithIndex (subjectPred c q) raw.info.participants = none →
      computeAdvancedStatsForMatch matchData timelineData c q = defaultAdvancedStats) ∧
    ((timelineData = none ∨ ∃ msg, timelineData = some (.error msg)) →
      (computeAdvancedStatsForMatch matchData timelineData c q).csDiff15 = none ∧
      (computeAdvancedStatsForMatch matchData timelineData c q).goldDiff15 = none ∧
      (computeAdvancedStatsForMatch matchData timelineData c q).xpDiff15 = none ∧
      (computeAdvancedStatsForMatch matchData timelineData c q).isolatedDeaths = none ∧
      (computeAdvancedStatsForMatch matchData timelineData c q).objectiveRate = none) := by
  refine ⟨?_, ?_, ?_⟩
  · intro msg hmsg
    subst hmsg
    rfl
  · intro raw hraw hfind
    subst hraw
    simp only [computeAdvancedStatsForMatch, hfind]
  · intro htl
    cases matchData with
    | error msg => exact ⟨rfl, rfl, rfl, rfl, rfl⟩
    | ok raw =>
      cases hfind : findWithIndex (subjectPred c q) raw.info.participants with
      | none =>
        simp only [computeAdvancedStatsForMatch, hfind]
        exact ⟨rfl, rfl, rfl, rfl, rfl⟩
      | some pr =>
        obtain ⟨me, myIdx⟩ := pr
        rcases htl with htl | ⟨msg, htl⟩ <;>
          subst htl <;>
          simp only [computeAdvancedStatsForMatch, hfind] <;>
          exact ⟨rfl, rfl, rfl, rfl, rfl⟩

theorem C4_compute_total_degrades_witness :
    computeAdvancedStatsForMatch (.error "SyntaxError") none "Ahri" 100 =
      defaultAdvancedStats ∧
    computeAdvancedStatsForMatch (.ok { info := plainMatchInfo }) none "Zed" 100 =
      defaultAdvancedStats ∧
    (computeAdvancedStatsForMatch (.ok { info := plainMatchInfo })
      (some (.error "SyntaxError")) "Ahri" 100).csDiff15 = none :=
  ⟨(C4_compute_total_degrades (.error "SyntaxError") none "Ahri" 100).1 "SyntaxError" rfl,
   (C4_compute_total_degrades (.ok { info := plainMatchInfo }) none "Zed" 100).2.1
     { info := plainMatchInfo } rfl (by decide),
   ((C4_compute_total_degrades (.ok { info := plainMatchInfo })
     (some (.error "SyntaxError")) "Ahri" 100).2.2
     (Or.inr ⟨"SyntaxError", rfl⟩)).1⟩

/-- Rounding to one decimal keeps a value of [0, 100] inside [0, 100]. -/
theorem roundTo1_bounds {x : Rat} (h0 : 0 ≤ x) (h100 : x ≤ 100) :
    0 ≤ roundTo1 x ∧ roundTo1 x ≤ 100 := by
  have hlow : (0 : Int) ≤ round (x * 10) := by
    rw [round_eq]
    exact Int.floor_nonneg.2 (by linarith)
  have hhigh : round (x * 10) ≤ 1000 := by
    rw [round_eq]
    have h1 : ⌊(1000 : Rat) + 1 / 2⌋ = 1000 := by
      rw [Int.floor_eq_iff]
      norm_num
    calc ⌊x * 10 + 1 / 2⌋ ≤ ⌊(1000 : Rat) + 1 / 2⌋ := Int.floor_mono (by linarith)
      _ = 1000 := h1
  have hc0 : (0 : Rat) ≤ ((round (x * 10) : Int) : Rat) := by exact_mod_cast hlow
  have hc1 : ((round (x * 10) : Int) : Rat) ≤ 1000 := by exact_mod_cast hhigh
  rw [roundTo1]
  constructor
  · exact div_nonneg hc0 (by norm_num)
  · rw [div_le_iff₀ (by norm_num : (0 : Rat) < 10)]
    linarith

/-- C7: with the subject resolved and a timeline present, objectiveRate is
null exactly when the timeline credits the subject's team with zero
elite-monster kills, and otherwise is a percentage in [0, 100]. -/
theorem C7_objectiveRate_null_iff_bounds (raw : RawDetail) (tl : Timeline)
    (c : String) (q : Nat) (me : Participant) (myIdx : Nat)
    (hfind : findWithIndex (subjectPred c q) raw.info.participants = some (me, myIdx)) :
    ((computeAdvancedStatsForMatch (.ok raw) (some (.ok tl)) c q).objectiveRate = none ↔
      teamObjEventsOf tl.info.frames
        (teamPIdsOf raw.info.participants me (pid me myIdx)) (pid me myIdx) = []) ∧
    (∀ r, (computeAdvancedStatsForMatch (.ok raw) (some (.ok tl)) c q).objectiveRate = some r →
      0 ≤ r ∧ r ≤ 100) := by
  constructor
  · simp only [computeAdvancedStatsForMatch, hfind]
    split
    next hlen =>
      constructor
      · intro h; exact absurd h (by simp)
      · intro h
        rw [h] at hlen
        simp at hlen
    next hlen =>
      constructor
      · intro _
        rw [← List.length_eq_zero]
        omega
      · intro _; rfl
  · intro r hr
    simp only [computeAdvancedStatsForMatch, hfind] at hr
    split at hr
    next hlen =>
      have hval := Option.some.inj hr
      subst hval
      apply roundTo1_bounds
      · positivity
      · have hA : (teamObjEventsOf tl.info.frames
            (teamPIdsOf raw.info.participants me (pid me myIdx)) (pid me myIdx)).countP
              (fun obj => aliveAtObjective tl.info.frames
                ((subjectDeaths tl.info.frames (pid me myIdx)).map (fun d => d.timestamp))
                (pid me myIdx) me.teamId obj) ≤
            (teamObjEventsOf tl.info.frames
              (teamPIdsOf raw.info.participants me (pid me myIdx)) (pid me myIdx)).length :=
          List.countP_le_length _
        have hLpos : (0 : Rat) < ((teamObjEventsOf tl.info.frames
            (teamPIdsOf raw.info.participants me (pid me myIdx)) (pid me myIdx)).length : Rat) := by
          exact_mod_cast hlen
        rw [div_mul_eq_mul_div, div_le_iff₀ hLpos]
        have hAc : ((teamObjEventsOf tl.info.frames
            (teamPIdsOf raw.info.participants me (pid me myIdx)) (pid me myIdx)).countP
              (fun obj => aliveAtObjective tl.info.frames
                ((subjectDeaths tl.info.frames (pid me myIdx)).map (fun d => d.timestamp))
                (pid me myIdx) me.teamId obj) : Rat) ≤
            ((teamObjEventsOf tl.info.frames
              (teamPIdsOf raw.info.participants me (pid me myIdx)) (pid me myIdx)).length : Rat) := by
          exact_mod_cast hA
        nlinarith
    next =>
      exact absurd hr (by simp)

theorem C7_objectiveRate_null_iff_bounds_witness :
    (computeAdvancedStatsForMatch (.ok objRaw) (some (.ok emptyTl)) "Ahri" 100).objectiveRate =
      none :=
  (C7_objectiveRate_null_iff_bounds objRaw emptyTl "Ahri" 100
    baseParticipant 0 (by decide)).1.2 (by decide)

/-! Support lemmas for the sync-loop claims. -/

theorem applyUpdate_matchId (old fresh : MatchRow) :
    (applyUpdate old fresh).matchId = old.matchId := rfl

theorem hasRow_append (s : Store) (r : MatchRow) (x : String) :
    hasRow (s ++ [r]) x = (hasRow s x || (r.matchId == x)) := by
  simp [hasRow, List.any_append]

theorem hasRow_updateRow (s : Store) (id : String) (fresh : MatchRow) (x : String) :
    hasRow (updateRow s id fresh) x = hasRow s x := by
  induction s with
  | nil => rfl
  | cons r rs ih =>
    simp only [updateRow, List.map_cons, hasRow, List.any_cons] at ih ⊢
    congr 1
    split
    next => rfl
    next => rfl

theorem storeGet_none_iff_hasRow (s : Store) (id : String) :
    storeGet s id = none ↔ hasRow s id = false := by
  simp [storeGet, hasRow, List.find?_eq_none, List.any_eq_false]

/-- One step of the processing loop preserves: the new-id list counts the
inserts, every recorded new id was absent from the pre-run store, and rows
present before remain present. -/
theorem processUnit_invariant (env : SyncEnv) (puuid : String) (store0 : Store)
    (st : SyncState) (id : String)
    (h1 : st.newMatchIds.length = st.newMatches)
    (h2 : ∀ i ∈ st.newMatchIds, hasRow store0 i = false)
    (h3 : ∀ x, hasRow store0 x = true → hasRow st.store x = true) :
    (processUnit env puuid st id).newMatchIds.length =
      (processUnit env puuid st id).newMatches ∧
    (∀ i ∈ (processUnit env puuid st id).newMatchIds, hasRow store0 i = false) ∧
    (∀ x, hasRow store0 x = true → hasRow (processUnit env puuid st id).store x = true) := by
  simp only [processUnit]
  split
  next hfetch =>
    split
    next => exact ⟨h1, h2, h3⟩
    next data hdata =>
      split
      next => exact ⟨h1, h2, h3⟩
      next me hme =>
        split
        next hrow =>
          refine ⟨?_, ?_, ?_⟩
          · simp [h1]
          · intro i hi
            rw [List.mem_append] at hi
            rcases hi with hi | hi
            · exact h2 i hi
            · rw [List.mem_singleton] at hi
              subst hi
              cases habs : hasRow store0 i with
              | false => rfl
              | true =>
                have hin := h3 i habs
                have hnone := (storeGet_none_iff_hasRow st.store i).1 hrow
                rw [hin] at hnone
                cases hnone
          · intro x hx
            rw [hasRow_append, h3 x hx]
            rfl
        next r hrow =>
          refine ⟨h1, h2, ?_⟩
          intro x hx
          rw [hasRow_updateRow]
          exact h3 x hx
  next => exact ⟨h1, h2, h3⟩

theorem syncFold_invariant (env : SyncEnv) (puuid : String) (store0 : Store)
    (ids : List String) :
    ∀ (st : SyncState),
      st.newMatchIds.length = st.newMatches →
      (∀ i ∈ st.newMatchIds, hasRow store0 i = false) →
      (∀ x, hasRow store0 x = true → hasRow st.store x = true) →
      (ids.foldl (fun s i => processUnit env puuid s i) st).newMatchIds.length =
        (ids.foldl (fun s i => processUnit env puuid s i) st).newMatches ∧
      (∀ i ∈ (ids.foldl (fun s i => processUnit env puuid s i) st).newMatchIds,
        hasRow store0 i = false) := by
  induction ids with
  | nil => intro st h1 h2 _; exact ⟨h1, h2⟩
  | cons id rest ih =>
    intro st h1 h2 h3
    simp only [List.foldl_cons]
    obtain ⟨g1, g2, g3⟩ := processUnit_invariant env puuid store0 st id h1 h2 h3
    exact ih (processUnit env puuid st id) g1 g2 g3

/-- When every processed id already satisfies the completeness check, the
whole loop only increments the skipped counter. -/
theorem syncFold_all_skipped (env : SyncEnv) (puuid : String) (ids : List String) :
    ∀ (st : SyncState),
      (∀ id ∈ ids, needsFetch (storeGet st.store id) = false) →
      ids.foldl (fun s i => processUnit env puuid s i) st =
        { store := st.store, newMatches := st.newMatches,
          skipped := st.skipped + ids.length, newMatchIds := st.newMatchIds } := by
  induction ids with
  | nil =>
    intro st _
    simp only [List.foldl_nil, List.length_nil, Nat.add_zero]
  | cons id rest ih =>
    intro st h
    have hid : needsFetch (storeGet st.store id) = false := h id (by simp)
    have hstep : processUnit env puuid st id =
        { store := st.store, newMatches := st.newMatches,
          skipped := st.skipped + 1, newMatchIds := st.newMatchIds } := by
      simp only [processUnit, hid]
      rfl
    simp only [List.foldl_cons, hstep]
    rw [ih { store := st.store, newMatches := st.newMatches,
             skipped := st.skipped + 1, newMatchIds := st.newMatchIds }
      (by intro i hi; exact h i (by simp [hi]))]
    simp only [List.length_cons]
    congr 1
    omega

/-- Every id of a special-queue fetch comes from a successful listing call
with an explicit queue parameter. -/
theorem mem_specialIdsOf (env : SyncEnv) (id : String) (h : id ∈ specialIdsOf env) :
    ∃ q a l, env.listIds RANKED_SEASON_START (some q) a = .ok l ∧ id ∈ l := by
  simp only [specialIdsOf, List.mem_flatten] at h
  obtain ⟨sub, hsub, hid⟩ := h
  simp only [List.mem_map] at hsub
  obtain ⟨q, _, rfl⟩ := hsub
  simp only [fetchSpecialQueue] at hid
  split at hid
  next l h0 => exact ⟨q, 0, l, h0, hid⟩
  next =>
    split at hid
    next l h1 => exact ⟨q, 1, l, h1, hid⟩
    next =>
      split at hid
      next l h2 => exact ⟨q, 2, l, h2, hid⟩
      next => cases hid

/-- Every id of the id-discovery phase comes from a successful unfiltered
listing call. -/
theorem mem_collectCandidateIds (env : SyncEnv) (store : Store)
    (collected : List String) (hcol : collectCandidateIds env store = .ok collected)
    (id : String) (hid : id ∈ collected) :
    ∃ start l, env.listIds start none 0 = .ok l ∧ id ∈ l := by
  unfold collectCandidateIds at hcol
  cases hmax : maxCreation store with
  | none =>
    simp only [hmax] at hcol
    exact ⟨_, collected, hcol, hid⟩
  | some latestTime =>
    simp only [hmax] at hcol
    by_cases hne : latestTime ≠ 0
    · rw [if_pos hne] at hcol
      cases hfwd : env.listIds (latestTime / 1000 + 1) none 0 with
      | error e => simp only [hfwd] at hcol; cases hcol
      | ok fwd =>
        simp only [hfwd] at hcol
        cases hmin : minCreation store with
        | none =>
          simp only [hmin] at hcol
          cases hcol
          exact ⟨_, _, hfwd, hid⟩
        | some oldestTime =>
          simp only [hmin] at hcol
          by_cases hgap : oldestTime ≠ 0 ∧ oldestTime / 1000 > RANKED_SEASON_START + 86400
          · rw [if_pos hgap] at hcol
            cases hback : env.listIds RANKED_SEASON_START none 0 with
            | error e => simp only [hback] at hcol; cases hcol
            | ok back =>
              simp only [hback] at hcol
              cases hcol
              rw [List.mem_append] at hid
              rcases hid with h | h
              · exact ⟨_, fwd, hfwd, h⟩
              · exact ⟨_, back, hback, (List.mem_filter.1 h).1⟩
          · rw [if_neg hgap] at hcol
            cases hcol
            exact ⟨_, _, hfwd, hid⟩
    · rw [if_neg hne] at hcol
      exact ⟨_, collected, hcol, hid⟩

/-- C1: when every match id any external listing call returns is already
persisted with all required columns non-null, a successful syncMatches run
reports zero new matches (each unit is skipped, never new). -/
theorem C1_sync_idempotent (env : SyncEnv) (store : Store) (puuid : String)
    (hcomplete : ∀ start queue attempt ids, env.listIds start queue attempt = .ok ids →
      ∀ id ∈ ids, ∃ r, storeGet store id = some r ∧ requiredComplete r = true)
    (res : SyncResult) (hrun : syncMatches env store puuid = .ok res) :
    res.newMatches = 0 ∧ (res.newMatchIds = none ∨ res.newMatchIds = some []) := by
  unfold syncMatches at hrun
  split at hrun
  next => cases hrun
  next collected hcol =>
    by_cases hempty : (processedIds (specialIdsOf env) collected).isEmpty
    · rw [if_pos hempty] at hrun
      cases hrun
      exact ⟨rfl, Or.inl rfl⟩
    · rw [if_neg hempty] at hrun
      have hids : ∀ id ∈ processedIds (specialIdsOf env) collected,
          needsFetch (storeGet store id) = false := by
        intro id hidmem
        have hmem : id ∈ specialIdsOf env ++ collected := mem_dedupFirst.1 hidmem
        have hrow : ∃ r, storeGet store id = some r ∧ requiredComplete r = true := by
          rw [List.mem_append] at hmem
          rcases hmem with hmem | hmem
          · obtain ⟨q, a, l, hl, hidl⟩ := mem_specialIdsOf env id hmem
            exact hcomplete _ _ _ l hl id hidl
          · obtain ⟨start, l, hl, hidl⟩ :=
              mem_collectCandidateIds env store collected hcol id hmem
            exact hcomplete _ _ _ l hl id hidl
        obtain ⟨r, hr, hc⟩ := hrow
        simp [needsFetch, hr, hc]
      rw [syncFold_all_skipped env puuid (processedIds (specialIdsOf env) collected)
        { store := store, newMatches := 0, skipped := 0, newMatchIds := [] } hids] at hrun
      cases hrun
      exact ⟨rfl, Or.inr rfl⟩

theorem C1_sync_idempotent_witness :
    ({ newMatches := 0, skipped := 1, total := 1,
       newMatchIds := some [] } : SyncResult).newMatches = 0 ∧
    (({ newMatches := 0, skipped := 1, total := 1,
        newMatchIds := some [] } : SyncResult).newMatchIds = none ∨
     ({ newMatches := 0, skipped := 1, total := 1,
        newMatchIds := some [] } : SyncResult).newMatchIds = some []) :=
  C1_sync_idempotent completeEnv [completeRow] "puuid-1"
    (by
      intro start queue attempt ids h id hid
      cases h
      rw [List.mem_singleton] at hid
      subst hid
      exact ⟨completeRow, rfl, rfl⟩)
    { newMatches := 0, skipped := 1, total := 1, newMatchIds := some [] }
    rfl

/-- C3 counterexample: on a run with zero candidate ids the early return
builds an object with only the three counters, so the newMatchIds field is
absent (none), refuting its presence on every input. -/
theorem C3_counterexample_zero_ids :
    syncMatches emptyListingEnv [] "puuid-1" =
      .ok { newMatches := 0, skipped := 0, total := 0, newMatchIds := none } := rfl

/-- C3 (amended): a successful syncMatches run always carries newMatches,
skipped and total; newMatchIds is present whenever at least one id was
processed (total nonzero) and is then exactly the list of ids newly
inserted during the run (its length is newMatches and each listed id had no
store row before the run); only the zero-id early return omits it. -/
theorem C3_sync_result_shape (env : SyncEnv) (store : Store) (puuid : String)
    (res : SyncResult) (hrun : syncMatches env store puuid = .ok res) :
    (res.newMatchIds = none → res.newMatches = 0 ∧ res.skipped = 0 ∧ res.total = 0) ∧
    (res.total ≠ 0 → ∃ l, res.newMatchIds = some l ∧ l.length = res.newMatches ∧
      ∀ id ∈ l, hasRow store id = false) := by
  unfold syncMatches at hrun
  split at hrun
  next => cases hrun
  next collected hcol =>
    by_cases hempty : (processedIds (specialIdsOf env) collected).isEmpty
    · rw [if_pos hempty] at hrun
      cases hrun
      exact ⟨fun _ => ⟨rfl, rfl, rfl⟩, fun h => absurd rfl h⟩
    · rw [if_neg hempty] at hrun
      obtain ⟨g1, g2⟩ := syncFold_invariant env puuid store
        (processedIds (specialIdsOf env) collected)
        { store := store, newMatches := 0, skipped := 0, newMatchIds := [] }
        rfl (by intro i hi; cases hi) (fun x hx => hx)
      cases hrun
      constructor
      · intro hnone
        cases hnone
      · intro _
        exact ⟨_, rfl, g1, g2⟩

theorem C3_sync_result_shape_witness :
    ∃ l, ({ newMatches := 0, skipped := 1, total := 1,
            newMatchIds := some [] } : SyncResult).newMatchIds = some l ∧
      l.length = 0 ∧ ∀ id ∈ l, hasRow [completeRow] id = false := by
  have h := (C3_sync_result_shape completeEnv [completeRow] "puuid-1"
    { newMatches := 0, skipped := 1, total := 1, newMatchIds := some [] } rfl).2
    (by decide)
  exact h

/-- C5 counterexample: the subject (Ahri, team 100, TOP) has a lane opponent
(Zed, team 200), and its csDiff15 is 7; but computing with subject and
opponent swapped resolves a different team-100 TOP participant as Zed's
opponent, giving 3 rather than the negation -7.  Swapping therefore does not
negate the lane diffs on every match in which the subject has a lane
opponent. -/
theorem C5_counterexample_swap_not_negated :
    findOpponent laneRaw.info.participants laneS = some (laneO, 2) ∧
    (computeAdvancedStatsForMatch (.ok laneRaw) (some (.ok laneTl)) "Ahri" 100).csDiff15 =
      some 7 ∧
    (computeAdvancedStatsForMatch (.ok laneRaw) (some (.ok laneTl)) "Zed" 200).csDiff15 =
      some 3 ∧
    ¬(some (3 : Int) = (some (7 : Int)).map (fun v => -v)) := by
  refine ⟨by decide, by decide, by decide, ?_⟩
  intro h
  simp only [Option.map_some'] at h
  cases h

/-- The lane-diff block is antisymmetric whenever lane-opponent resolution
is mutual. -/
theorem laneDiffs_swap (ps : List Participant) (me opp : Participant)
    (myIdx oppIdx : Nat) (frames : List Frame)
    (hmeOpp : findOpponent ps me = some (opp, oppIdx))
    (hoppOpp : findOpponent ps opp = some (me, myIdx)) :
    laneDiffs ps opp oppIdx frames =
      (laneDiffs ps me myIdx frames).map (fun d => (-d.1, -d.2.1, -d.2.2)) := by
  cases hf : frame15 frames with
  | none => simp only [laneDiffs, hf, Option.map_none']
  | some f15 =>
    cases hA : f15.participantFrames.lookup (pid me myIdx) with
    | none =>
      cases hB : f15.participantFrames.lookup (pid opp oppIdx) with
      | none => simp only [laneDiffs, hf, hA, hB, Option.map_none']
      | some bf => simp only [laneDiffs, hf, hA, hB, hoppOpp, Option.map_none']
    | some af =>
      cases hB : f15.participantFrames.lookup (pid opp oppIdx) with
      | none => simp only [laneDiffs, hf, hA, hB, hmeOpp, Option.map_none']
      | some bf =>
        simp only [laneDiffs, hf, hA, hB, hmeOpp, hoppOpp, Option.map_some']
        congr 1
        refine Prod.ext ?_ (Prod.ext ?_ ?_) <;> simp

/-- C5 (amended): when subject resolution and lane-opponent resolution are
mutual — the subject and its lane opponent each resolve to themselves by
champion-name/team lookup, and each is the other's resolved lane opponent —
swapping subject and lane opponent negates csDiff15, goldDiff15 and xpDiff15
exactly (a null diff stays null). -/
theorem C5_swap_negates_lane_diffs (raw : RawDetail) (tl : Timeline)
    (me opp : Participant) (myIdx oppIdx : Nat)
    (hme : findWithIndex (subjectPred me.championName me.teamId)
      raw.info.participants = some (me, myIdx))
    (hopp : findWithIndex (subjectPred opp.championName opp.teamId)
      raw.info.participants = some (opp, oppIdx))
    (hmeOpp : findOpponent raw.info.participants me = some (opp, oppIdx))
    (hoppOpp : findOpponent raw.info.participants opp = some (me, myIdx)) :
    (computeAdvancedStatsForMatch (.ok raw) (some (.ok tl))
        opp.championName opp.teamId).csDiff15 =
      (computeAdvancedStatsForMatch (.ok raw) (some (.ok tl))
        me.championName me.teamId).csDiff15.map (fun v => -v) ∧
    (computeAdvancedStatsForMatch (.ok raw) (some (.ok tl))
        opp.championName opp.teamId).goldDiff15 =
      (computeAdvancedStatsForMatch (.ok raw) (some (.ok tl))
        me.championName me.teamId).goldDiff15.map (fun v => -v) ∧
    (computeAdvancedStatsForMatch (.ok raw) (some (.ok tl))
        opp.championName opp.teamId).xpDiff15 =
      (computeAdvancedStatsForMatch (.ok raw) (some (.ok tl))
        me.championName me.teamId).xpDiff15.map (fun v => -v) := by
  have hswap := laneDiffs_swap raw.info.participants me opp myIdx oppIdx
    tl.info.frames hmeOpp hoppOpp
  refine ⟨?_, ?_, ?_⟩ <;>
    simp only [computeAdvancedStatsForMatch, hme, hopp, hswap] <;>
    cases laneDiffs raw.info.participants me myIdx tl.info.frames <;>
    rfl

theorem C5_swap_negates_lane_diffs_witness :
    (computeAdvancedStatsForMatch (.ok laneRaw2) (some (.ok laneTl))
        "Zed" 200).csDiff15 =
      (computeAdvancedStatsForMatch (.ok laneRaw2) (some (.ok laneTl))
        "Ahri" 100).csDiff15.map (fun v => -v) :=
  (C5_swap_negates_lane_diffs laneRaw2 laneTl laneS laneO 0 1
    (by decide) (by decide) (by decide) (by decide)).1

/-- C6 counterexample: the subject's only death (at t = 100s, with a
recorded position) is counted as isolated although a living ally — one that
is never the victim of any kill event — stands at the death location (well
within 1500 units) at the nearest minute-granularity frame: the code indexes
frames by the floor of the death minute, not by nearest timestamp. -/
theorem C6_counterexample_nearest_frame_ally :
    (computeAdvancedStatsForMatch (.ok isoRaw) (some (.ok isoTl))
        "Ahri" 100).isolatedDeaths = some 1 ∧
    subjectDeaths isoTl.info.frames 1 = [isoDeathEvent] ∧
    isoDeathEvent.position = some isoPos ∧
    getNearestFrame isoTl.info.frames isoDeathEvent.timestamp = some isoFrame2 ∧
    getPlayerPos (some isoFrame2) 2 = some isoPos ∧
    sqDist isoPos isoPos ≤ 1500 * 1500 ∧
    (killEventsOf isoTl.info.frames).filter (fun e => e.victimId == 2) = [] := by
  decide

/-- C6 (amended): a death of the subject with a recorded position, for which
some teammate has a recorded position within 1500 units at the frame at
index min(floor(timestamp / 60000), frames.length - 1) — in particular any
living ally there — is never counted toward isolatedDeaths: the per-death
predicate is false for it, and isolatedDeaths counts exactly the deaths
satisfying that predicate (the code does not require the nearby teammate to
be alive). -/
theorem C6_floor_frame_teammate_never_isolated (raw : RawDetail) (tl : Timeline)
    (c : String) (q : Nat) (me : Participant) (myIdx : Nat)
    (hfind : findWithIndex (subjectPred c q) raw.info.participants = some (me, myIdx))
    (death : Event)
    (_hdeath : death ∈ subjectDeaths tl.info.frames (pid me myIdx))
    (dp : Position) (hpos : death.position = some dp)
    (hnear : ∃ tmPId ∈ teamPIdsOf raw.info.participants me (pid me myIdx),
      ∃ f, floorFrame tl.info.frames death.timestamp = some f ∧
        ∃ pf, f.participantFrames.lookup tmPId = some pf ∧
          ∃ tp, pf.position = some tp ∧ sqDist dp tp ≤ 1500 * 1500) :
    isIsolatedDeath tl.info.frames
      (teamPIdsOf raw.info.participants me (pid me myIdx))
      ((allEventsOf tl.info.frames).filter (fun e =>
        e.type == "ELITE_MONSTER_KILL" || e.type == "BUILDING_KILL")) death = false ∧
    (computeAdvancedStatsForMatch (.ok raw) (some (.ok tl)) c q).isolatedDeaths =
      some ((subjectDeaths tl.info.frames (pid me myIdx)).countP
        (fun d => isIsolatedDeath tl.info.frames
          (teamPIdsOf raw.info.participants me (pid me myIdx))
          ((allEventsOf tl.info.frames).filter (fun e =>
            e.type == "ELITE_MONSTER_KILL" || e.type == "BUILDING_KILL")) d)) := by
  obtain ⟨tmPId, htm, f, hf, pf, hpf, tp, htp, hdist⟩ := hnear
  constructor
  · simp only [isIsolatedDeath, hpos, hf]
    have hany : (teamPIdsOf raw.info.participants me (pid me myIdx)).any
        (fun tmPId => match f.participantFrames.lookup tmPId with
          | some tmFrame => match tmFrame.position with
            | some tp => decide (sqDist dp tp ≤ 1500 * 1500)
            | none => false
          | none => false) = true := by
      rw [List.any_eq_true]
      refine ⟨tmPId, htm, ?_⟩
      simp only [hpf, htp]
      exact decide_eq_true hdist
    rw [hany]
    rfl
  · simp only [computeAdvancedStatsForMatch, hfind]

theorem C6_floor_frame_teammate_never_isolated_witness :
    isIsolatedDeath isoNearTl.info.frames
      (teamPIdsOf isoRaw.info.participants baseParticipant (pid baseParticipant 0))
      ((allEventsOf isoNearTl.info.frames).filter (fun e =>
        e.type == "ELITE_MONSTER_KILL" || e.type == "BUILDING_KILL"))
      isoDeathEvent = false ∧
    (computeAdvancedStatsForMatch (.ok isoRaw) (some (.ok isoNearTl))
        "Ahri" 100).isolatedDeaths =
      some ((subjectDeaths isoNearTl.info.frames (pid baseParticipant 0)).countP
        (fun d => isIsolatedDeath isoNearTl.info.frames
          (teamPIdsOf isoRaw.info.participants baseParticipant (pid baseParticipant 0))
          ((allEventsOf isoNearTl.info.frames).filter (fun e =>
            e.type == "ELITE_MONSTER_KILL" || e.type == "BUILDING_KILL")) d)) :=
  C6_floor_frame_teammate_never_isolated isoRaw isoNearTl "Ahri" 100
    baseParticipant 0 (by decide) isoDeathEvent (by decide) isoPos rfl
    ⟨2, by decide, isoNearFrame1, by decide, isoPf isoPos, by decide,
      isoPos, rfl, by decide⟩

end Nexus
